import Mathlib

/-!
# Verification of the RV32IMAFD virtual machine core

A shallow embedding, in Lean 4, of the execution engine implemented in
`src/src/VirtualMachine.cpp` (class `VirtualMachine`): CSR file, Sv32
address translation, float-bit-pattern classification, and the per
instruction step loop.  Machine integers are modelled as `Nat` reduced
modulo `2^32` (or `2^64`) exactly where the C++ `uint32_t`/`uint64_t`
arithmetic wraps.  Fallible operations (C++ `throw`) are modelled with
`Except`, the error carrying the machine state at the moment of the
throw, because C++ exceptions leave already-performed member mutations
in place.

Items whose source is not part of the repository snapshot (the contents
of `VirtualMachine.hpp`, `RV32I.hpp` and the `Memory` bus
implementation) are modelled from the specification and carry a
`Modelled from the spec:` note in their doc comment.
-/

namespace RV32

/-- `2^32`, the modulus of `uint32_t` arithmetic. -/
def M32 : Nat := 4294967296

/-- `2^64`, the modulus of `uint64_t` arithmetic. -/
def M64 : Nat := 18446744073709551616

/-- Truncation to 32 bits, i.e. the implicit conversion to `uint32_t`. -/
def mask32 (n : Nat) : Nat := n % M32

/-- Truncation to 64 bits, i.e. the implicit conversion to `uint64_t`. -/
def mask64 (n : Nat) : Nat := n % M64

/-- `uint32_t` subtraction (wraps modulo `2^32`; arguments < `2^32`). -/
def sub32 (a b : Nat) : Nat := (a + (M32 - b)) % M32

/-- Reinterpret a `uint32_t` bit pattern as `int32_t`
(the source's `AsSigned` union cast). -/
def asSigned (v : Nat) : Int := if v < 2147483648 then (v : Int) else (v : Int) - (M32 : Int)

/-- Reinterpret an `int32_t` value as `uint32_t`
(the source's `AsUnsigned` union cast). -/
def asUnsigned (v : Int) : Nat := (v % (M32 : Int)).toNat

/-- `SignExtend(value, bit)` from `VirtualMachine::Step`:
or in `-1U << bit` when bit `bit` of `value` is set. -/
def signExtend (value bit : Nat) : Nat :=
  if value.testBit bit then value ||| (M32 - 2 ^ bit) else value

/-- `-1U << amount` as computed by `uint32_t` arithmetic (`amount` < 32). -/
def minusOneShl (amount : Nat) : Nat := mask32 ((M32 - 1) <<< amount)

/-!
## Float bit patterns

The `Float` union of the virtual machine stores each float register as a
64-bit backing word; single-precision operands live in the low 32 bits.
We model a float register lane as the 64-bit backing pattern (a `Nat`
below `2^64`) and classification as pure bit arithmetic, exactly as
`ClassF32` / `ClassF64` compute it.
-/

/-- Result of the `ClassF32`/`ClassF64` classification helpers: the six
booleans that the source writes through its out-parameters. -/
structure FClass where
  is_inf : Bool
  is_nan : Bool
  is_qnan : Bool
  is_subnormal : Bool
  is_zero : Bool
  is_neg : Bool
deriving Repr, DecidableEq

/-- `ClassF32` from `VirtualMachine::Step`: classify the low 32 bits of a
float register lane as an IEEE-754 single.  `is_nan` is true only for
signalling NaNs (quiet bit clear), `is_qnan` for quiet NaNs. -/
def classF32 (u : Nat) : FClass :=
  let sign := (mask32 u) >>> 31
  let exp := (u >>> 23) &&& 0xff
  let frac := u &&& 0x7fffff
  { is_inf := exp == 0xff && frac == 0
    is_nan := exp == 0xff && frac != 0 && !(frac &&& 0x400000 != 0)
    is_qnan := exp == 0xff && (frac &&& 0x400000 != 0)
    is_subnormal := exp == 0 && frac != 0
    is_zero := exp == 0 && frac == 0
    is_neg := sign != 0 }

/-- `ClassF64` from `VirtualMachine::Step`: classify a full 64-bit lane
as an IEEE-754 double. -/
def classF64 (u : Nat) : FClass :=
  let sign := (mask64 u) >>> 63
  let exp := (u >>> 52) &&& 0x7ff
  let frac := u &&& 0xfffffffffffff
  { is_inf := exp == 0x7ff && frac == 0
    is_nan := exp == 0x7ff && frac != 0 && !(frac &&& 0x8000000000000 != 0)
    is_qnan := exp == 0x7ff && (frac &&& 0x8000000000000 != 0)
    is_subnormal := exp == 0 && frac != 0
    is_zero := exp == 0 && frac == 0
    is_neg := sign != 0 }

/-- The result written to `rd` by `FCLASS.S` (case `Type::FCLASS_S` of
`VirtualMachine::Step`), as a function of the low 32 bits of the source
lane. -/
def fclassS (u : Nat) : Nat :=
  let c := classF32 u
  let r0 := if c.is_inf && c.is_neg then 1 else 0
  let r1 := if !c.is_subnormal && c.is_neg then 2 else 0
  let r2 := if c.is_subnormal && c.is_neg then 4 else 0
  let r3 := if c.is_zero && c.is_neg then 8 else 0
  let r4 := if c.is_zero && !c.is_neg then 16 else 0
  let r5 := if c.is_subnormal && !c.is_neg then 32 else 0
  let r6 := if !c.is_subnormal && !c.is_nan then 64 else 0
  let r7 := if c.is_inf && !c.is_neg then 128 else 0
  let r8 := if c.is_nan then 256 else 0
  let r9 := if c.is_qnan then 512 else 0
  r0 ||| r1 ||| r2 ||| r3 ||| r4 ||| r5 ||| r6 ||| r7 ||| r8 ||| r9

/-- Number of set bits among the low ten bits of `n` (to state the
"exactly one class bit" property of `FCLASS`). -/
def popCount10 (n : Nat) : Nat :=
  (List.range 10).foldl (fun acc i => acc + (if n.testBit i then 1 else 0)) 0

/-!
## Shifts

`Type::SRAI` and `Type::SRA` share the hand-rolled sign extension of the
source: shift right logically, then or in `-1U << amount` when bit
`32 - amount` of the operand is set.  (`1U << (32 - amount)` is modelled
modulo `2^32`; for `amount = 0` the C++ expression `1U << 32` is
undefined behaviour, the model takes the wrapped value `0`.) -/
def sra32code (rs1 amount : Nat) : Nat :=
  let value := rs1 >>> amount
  let sign := minusOneShl amount
  if rs1 &&& (mask32 (1 <<< (32 - amount))) != 0 then value ||| sign else value

/-- The arithmetic right shift the specification states for SRAI/SRA:
the operand read as `int32_t` (sign propagated from bit 31), divided by
`2^amount` rounding toward negative infinity, written back as
`uint32_t`. -/
def sra32spec (rs1 amount : Nat) : Nat :=
  asUnsigned ((asSigned rs1).fdiv (2 ^ amount))

/-!
## CSR addresses and the CSR file

Modelled from the spec: the numeric CSR addresses live in
`VirtualMachine.hpp`, which is not part of the snapshot; the values
below are the standard RISC-V privileged-spec addresses that the names
denote (the spec's privilege ranges in 4.3 only make sense with these
values).
-/

def CSR_FFLAGS : Nat := 0x001
def CSR_FRM : Nat := 0x002
def CSR_FCSR : Nat := 0x003
def CSR_CYCLE : Nat := 0xC00
def CSR_TIME : Nat := 0xC01
def CSR_INSTRET : Nat := 0xC02
def CSR_CYCLEH : Nat := 0xC80
def CSR_TIMEH : Nat := 0xC81
def CSR_INSTRETH : Nat := 0xC82
def CSR_SSTATUS : Nat := 0x100
def CSR_SIE : Nat := 0x104
def CSR_STVEC : Nat := 0x105
def CSR_SCOUNTEREN : Nat := 0x106
def CSR_SENVCFG : Nat := 0x10A
def CSR_SSCRATCH : Nat := 0x140
def CSR_SEPC : Nat := 0x141
def CSR_SCAUSE : Nat := 0x142
def CSR_STVAL : Nat := 0x143
def CSR_SIP : Nat := 0x144
def CSR_SATP : Nat := 0x180
def CSR_SCONTEXT : Nat := 0x5A8
def CSR_MSTATUS : Nat := 0x300
def CSR_MISA : Nat := 0x301
def CSR_MVENDORID : Nat := 0xF11
def CSR_MARCHID : Nat := 0xF12
def CSR_MIMPID : Nat := 0xF13
def CSR_MHARTID : Nat := 0xF14
def CSR_MCYCLE : Nat := 0xB00
def CSR_MCYCLEH : Nat := 0xB80
def CSR_MINSTRET : Nat := 0xB02
def CSR_MINSTRETH : Nat := 0xB82
def CSR_MHPMEVENT3 : Nat := 0x323
def CSR_MHPMCOUNTER3 : Nat := 0xB03
def CSR_MHPMCOUNTER3H : Nat := 0xB83

/-- `CSR_PERFORMANCE_EVENT_MAX` (standard hpm range: events 3..31). -/
def CSR_PERFORMANCE_EVENT_MAX : Nat := 32

/-- `CSR_PERF_COUNTER_MAX` (standard hpm range: counters 3..31). -/
def CSR_PERF_COUNTER_MAX : Nat := 32

/-- fcsr flag bits (low five bits of `fcsr`): NX. -/
def CSR_FCSR_NX : Nat := 1
/-- fcsr flag bit UF. -/
def CSR_FCSR_UF : Nat := 2
/-- fcsr flag bit OF. -/
def CSR_FCSR_OF : Nat := 4
/-- fcsr flag bit DZ. -/
def CSR_FCSR_DZ : Nat := 8
/-- fcsr flag bit NV. -/
def CSR_FCSR_NV : Nat := 16

/-- The three privilege levels of `VirtualMachine::PrivilegeLevel`. -/
inductive Priv where
  | User
  | Supervisor
  | Machine
deriving Repr, DecidableEq

/-- The sparse CSR store `std::unordered_map<uint32_t, uint32_t>`:
an association list of (address, value) pairs with unique keys. -/
abbrev CsrMap : Type := List (Nat × Nat)

/-- `csrs.contains(k)`. -/
def csrContains (cs : CsrMap) (k : Nat) : Bool :=
  (cs : List (Nat × Nat)).any (fun p => p.1 == k)

/-- Lookup without insertion (`csrs.at(k)` modulo the exception). -/
def csrLookup (cs : CsrMap) (k : Nat) : Option Nat :=
  ((cs : List (Nat × Nat)).find? (fun p => p.1 == k)).map (fun p => p.2)

/-- `csrs[k] = v`: replace the value when the key is present, append
otherwise. -/
def csrSet (cs : CsrMap) (k v : Nat) : CsrMap :=
  if csrContains cs k then
    (cs : List (Nat × Nat)).map (fun p => if p.1 == k then (k, v) else p)
  else (cs : List (Nat × Nat)) ++ [(k, v)]

/-- Reading `csrs[k]` through `operator[]`: default-inserts `0` when
the key is absent (this is how `CSR_FCSR` first enters the map). -/
def csrGetD (cs : CsrMap) (k : Nat) : Nat × CsrMap :=
  match csrLookup cs k with
  | some v => (v, cs)
  | none => (0, (cs : List (Nat × Nat)) ++ [(k, 0)])

/-- `VirtualMachine::CSRPrivilegeCheck`. -/
def csrPrivilegeCheck (priv : Priv) (csr : Nat) : Bool :=
  if csr < 4 || (0xc00 ≤ csr && csr < 0xcf0) then true
  else if (0x100 ≤ csr && csr < 0x121) || csr == CSR_SCONTEXT then priv != Priv.User
  else priv == Priv.Machine

/-- `VirtualMachine::SetFloatFlags` (in `Step`): or the selected flag
bits into `fcsr` (`operator[]` access, so `fcsr` is default-inserted). -/
def setFloatFlags (cs : CsrMap) (nv dz ovf uf nx : Bool) : CsrMap :=
  let bits := (if nv then CSR_FCSR_NV else 0) + (if dz then CSR_FCSR_DZ else 0) +
    (if ovf then CSR_FCSR_OF else 0) + (if uf then CSR_FCSR_UF else 0) +
    (if nx then CSR_FCSR_NX else 0)
  let p := csrGetD cs CSR_FCSR
  csrSet p.2 CSR_FCSR (p.1 ||| bits)

/-- `VirtualMachine::CheckFloatErrors`, with the host FP exception
flags abstracted into a five-bit mask `flags` (NX=1, UF=2, OF=4, DZ=8,
NV=16): clear the `fcsr` flags field, merge the host flags, and report
whether DIVBYZERO or INVALID fired. -/
def checkFloatErrors (cs : CsrMap) (flags : Nat) : Bool × CsrMap :=
  let p := csrGetD cs CSR_FCSR
  let v2 := ((p.1 >>> 5) <<< 5) ||| (flags % 32)
  ((flags % 32) &&& (CSR_FCSR_DZ ||| CSR_FCSR_NV) != 0, csrSet p.2 CSR_FCSR v2)

/-- `VirtualMachine::ChangeRoundingMode`, keeping only the
architectural effect (the host `fesetround` call has none): whether the
rounding-mode field is acceptable, plus the CSR map after the
`operator[]` read of `fcsr` in the dynamic case.  In the source a
dynamic mode whose `frm` field is again `111` recurses forever; the
model reports it as invalid (the configuration is unreachable through
the flag-writing paths, which keep `fcsr < 32`). -/
def changeRM (cs : CsrMap) (rm : Nat) : Bool × CsrMap :=
  if rm ≤ 3 then (true, cs)
  else if rm ≤ 6 then (false, cs)
  else if rm == 7 then
    let p := csrGetD cs CSR_FCSR
    if ((p.1 >>> 5) &&& 7) ≤ 3 then (true, p.2) else (false, p.2)
  else (true, cs)

/-!
## Memory bus

Modelled from the spec: the `Memory` implementation is outside the
core; 4.2 gives its contract.  Bytes are a partial map; absent
addresses make `read_*`/`write_*` fault and `peek_word` report absence.
Half and word accesses are little-endian composites.  The reservation
(4.2, 5) is a per-bus slot holding the reserving hart and the 4-byte
granule. -/
structure Mem where
  bytes : Nat → Option Nat
  resv : Option (Nat × Nat)

/-- `read_byte`: delivers a `uint8` (the backing map is reduced to a
byte on read, so stored values outside 0..255 cannot leak). -/
def memReadByte (mm : Mem) (a : Nat) : Option Nat :=
  (mm.bytes (mask32 a)).map (fun b => b % 256)

/-- `read_half` (little-endian). -/
def memReadHalf (mm : Mem) (a : Nat) : Option Nat :=
  match memReadByte mm a, memReadByte mm (a + 1) with
  | some b0, some b1 => some (b0 + (b1 <<< 8))
  | _, _ => none

/-- `read_word` (little-endian). -/
def memReadWord (mm : Mem) (a : Nat) : Option Nat :=
  match memReadByte mm a, memReadByte mm (a + 1), memReadByte mm (a + 2), memReadByte mm (a + 3) with
  | some b0, some b1, some b2, some b3 => some (b0 + (b1 <<< 8) + (b2 <<< 16) + (b3 <<< 24))
  | _, _, _, _ => none

/-- `peek_word`: same lookup as `read_word` but by contract it never
faults, reporting absence instead. -/
def memPeekWord (mm : Mem) (a : Nat) : Option Nat := memReadWord mm a

/-- `write_byte`: store the low 8 bits; fault (`none`) when the address
is not backed. -/
def memWriteByte (mm : Mem) (a v : Nat) : Option Mem :=
  match mm.bytes (mask32 a) with
  | none => none
  | some _ => some { mm with bytes := fun x => if x = mask32 a then some (v % 256) else mm.bytes x }

/-- `write_half`. -/
def memWriteHalf (mm : Mem) (a v : Nat) : Option Mem :=
  match memWriteByte mm a v with
  | none => none
  | some m1 => memWriteByte m1 (a + 1) (v >>> 8)

/-- `write_word`. -/
def memWriteWord (mm : Mem) (a v : Nat) : Option Mem :=
  match memWriteByte mm a v with
  | none => none
  | some m1 =>
    match memWriteByte m1 (a + 1) (v >>> 8) with
    | none => none
    | some m2 =>
      match memWriteByte m2 (a + 2) (v >>> 16) with
      | none => none
      | some m3 => memWriteByte m3 (a + 3) (v >>> 24)

/-- `read_word_reserved(addr, hart)`: a word read that also records the
reservation for this hart on the containing granule. -/
def memReadWordReserved (mm : Mem) (a hart : Nat) : Option (Nat × Mem) :=
  match memReadWord mm a with
  | none => none
  | some w => some (w, { mm with resv := some (hart, mask32 a >>> 2) })

/-- `write_word_conditional(addr, value, hart)`: store only when this
hart's reservation covers the granule; always clear the reservation. -/
def memWriteWordConditional (mm : Mem) (a v hart : Nat) : Bool × Mem :=
  if mm.resv == some (hart, mask32 a >>> 2) then
    match memWriteWord { mm with resv := none } a v with
    | some m1 => (true, m1)
    | none => (false, { mm with resv := none })
  else (false, { mm with resv := none })

/-- The eight AMO primitives: read the prior word, store the combined
word, deliver the prior word. -/
def memAtomic (mm : Mem) (a v : Nat) (f : Nat → Nat → Nat) : Option (Nat × Mem) :=
  match memReadWord mm a with
  | none => none
  | some w =>
    match memWriteWord mm a (mask32 (f w v)) with
    | none => none
    | some m1 => some (w, m1)

/-!
## Hart state
-/

/-- The architectural state of one hart, as owned by `VirtualMachine`:
integer register file, float register file (64-bit backing patterns),
program counter, 64-bit cycle counter, CSR map, privilege level, the
shared memory bus, and the CSR-mapped `time` value.  (The `is_double`
tags, tick-rate history and breakpoint set play no part in the claims
considered here and are omitted.) -/
structure Machine where
  regs : Nat → Nat
  fregs : Nat → Nat
  pc : Nat
  cycles : Nat
  csrs : CsrMap
  priv : Priv
  mem : Mem
  time : Nat

/-- `VirtualMachine::ReadCSR(csr, is_internal_read)`: privilege gate
(skipped for internal reads), validity gate, hpm shortcuts, then the
synthesized counter/time reads, falling back to the stored value. -/
def readCSR (m : Machine) (csr : Nat) (internal : Bool) : Except String Nat :=
  if !internal && !csrPrivilegeCheck m.priv csr then .error "CSR Read Privilege"
  else if !csrContains m.csrs csr then .error "Read Invalid CSR"
  else if CSR_MHPMEVENT3 ≤ csr && csr < CSR_MHPMEVENT3 + (CSR_PERFORMANCE_EVENT_MAX - 3) then .ok 0
  else if CSR_MHPMCOUNTER3 ≤ csr && csr < CSR_MHPMCOUNTER3 + (CSR_PERF_COUNTER_MAX - 3) then .ok 0
  else if CSR_MHPMCOUNTER3H ≤ csr && csr < CSR_MHPMCOUNTER3H + (CSR_PERF_COUNTER_MAX - 3) then .ok 0
  else if csr == CSR_MCYCLE || csr == CSR_CYCLE then .ok (mask32 m.cycles)
  else if csr == CSR_MCYCLEH || csr == CSR_CYCLEH then .ok (mask32 (m.cycles >>> 32))
  else if csr == CSR_TIME then .ok (mask32 m.time)
  else if csr == CSR_TIMEH then .ok (mask32 (m.time >>> 32))
  else .ok ((csrLookup m.csrs csr).getD 0)

/-- `VirtualMachine::WriteCSR`: privilege gate, validity gate, then
either silently drop (the read-only list) or store. -/
def writeCSR (m : Machine) (csr v : Nat) : Except String CsrMap :=
  if !csrPrivilegeCheck m.priv csr then .error "CSR Write Privilege"
  else if !csrContains m.csrs csr then .error "Write Invalid CSR"
  else if csr == CSR_MVENDORID || csr == CSR_MARCHID || csr == CSR_MIMPID ||
      csr == CSR_MHARTID || csr == CSR_MISA || csr == CSR_MINSTRET ||
      csr == CSR_MINSTRETH || csr == CSR_CYCLE || csr == CSR_CYCLEH ||
      csr == CSR_TIME || csr == CSR_TIMEH then .ok m.csrs
  else .ok (csrSet m.csrs csr (mask32 v))

/-!
## Sv32 address translation
-/

/-- The decoded fields of a page-table entry.  Modelled from the spec:
the `TLBEntry` bitfield lives in the missing header; the layout is the
standard Sv32 PTE (flags in the low byte, `PPN0` in bits 10-19, `PPN1`
in bits 20-31) that 4.4 describes. -/
structure PTE where
  V : Bool
  R : Bool
  W : Bool
  X : Bool
  A : Bool
  D : Bool
  PPN_0 : Nat
  PPN_1 : Nat
  PPN : Nat

/-- Decode a raw 32-bit word into the `TLBEntry` fields. -/
def pteOf (raw : Nat) : PTE :=
  { V := raw.testBit 0
    R := raw.testBit 1
    W := raw.testBit 2
    X := raw.testBit 3
    A := raw.testBit 6
    D := raw.testBit 7
    PPN_0 := (raw >>> 10) &&& 0x3ff
    PPN_1 := (raw >>> 20) &&& 0xfff
    PPN := (raw >>> 10) &&& 0x3fffff }

/-- `TLBEntry::IsLeaf`: R, X or W set (spec 4.4). -/
def PTE.isLeaf (p : PTE) : Bool := p.R || p.W || p.X

/-- The `ReadTLBEntry` lambda of `VirtualMachine::TranslateMemoryAddress`:
peek the word (access-fault when absent), then the V / R-W validity
check (page-fault). -/
def readTLBEntry (peek : Nat → Option Nat) (a : Nat) : Except String PTE :=
  match peek a with
  | none => .error "Address translation failed, PPN access-fault"
  | some w =>
    let p := pteOf w
    if !p.V || (!p.R && p.W) then .error "Address translation failed, PPN page-fault"
    else .ok p

/-- `VirtualMachine::TranslateMemoryAddress(address, is_write)`,
parametrized by the bus peek function and the current `satp` value
(`csrs.at(CSR_SATP)`).  All address arithmetic wraps modulo `2^32` as
the `uint32_t` computation does. -/
def translateMemoryAddress (peek : Nat → Option Nat) (satp address : Nat) (is_write : Bool) :
    Except String Nat :=
  let offset := address &&& 0xfff
  let vpn0 := (address >>> 12) &&& 0x3ff
  let vpn1 := (mask32 address >>> 22) &&& 0x3ff
  let root := mask32 (satp <<< 12)
  match readTLBEntry peek (mask32 (root + vpn1 * 4)) with
  | .error e => .error e
  | .ok ppn1 =>
    let second : Except String (PTE × Bool) :=
      if ppn1.isLeaf then .ok (ppn1, true)
      else
        match readTLBEntry peek (mask32 (ppn1.PPN * 0x1000 + vpn0 * 4)) with
        | .error e => .error e
        | .ok leaf =>
          if !leaf.isLeaf then .error "Address translation failed, PPN page-fault"
          else .ok (leaf, false)
    match second with
    | .error e => .error e
    | .ok (leaf, super) =>
      if super && leaf.PPN_0 != 0 then .error "Address translation failed, PPN page-fault"
      else if !leaf.A || (leaf.D && is_write) then .error "Address translation failed, page-fault"
      else if super then .ok (mask32 (leaf.PPN_1 <<< 22) ||| (vpn0 <<< 12) ||| offset)
      else .ok (mask32 (leaf.PPN <<< 12) ||| offset)

/-- Outcome classes of a translation: a physical address, a page fault,
or an access fault. -/
inductive TResult where
  | ok (pa : Nat)
  | pageFault
  | accessFault
deriving Repr, DecidableEq

/-- Collapse a translation result to its outcome class (the source
distinguishes the two fault kinds only by the message text). -/
def classifyT : Except String Nat → TResult
  | .ok pa => .ok pa
  | .error e => if e == "Address translation failed, PPN access-fault" then .accessFault else .pageFault

/-- The Sv32 walk exactly as claim C8 words it: split the virtual
address into offset / vpn0 / vpn1; read the first-level PTE at
`root + vpn1*4` (peek: absent word is an access fault; V=0 or R=0∧W=1
is a page fault); a first-level leaf is a superpage whose PPN0 field
must be zero (else page fault) translating to the PPN1-vpn0-offset
concatenation; otherwise the second-level PTE at `PPN*4096 + vpn0*4`
must be a valid leaf; in all cases A must be set and a write with D set
page-faults. -/
def translateSv32Spec (peek : Nat → Option Nat) (satp address : Nat) (is_write : Bool) : TResult :=
  let offset := address &&& 0xfff
  let vpn0 := (address >>> 12) &&& 0x3ff
  let vpn1 := (mask32 address >>> 22) &&& 0x3ff
  let root := mask32 (satp <<< 12)
  match peek (mask32 (root + vpn1 * 4)) with
  | none => .accessFault
  | some w1 =>
    let p1 := pteOf w1
    if !p1.V || (!p1.R && p1.W) then .pageFault
    else if p1.isLeaf then
      if p1.PPN_0 != 0 then .pageFault
      else if !p1.A || (p1.D && is_write) then .pageFault
      else .ok (mask32 (p1.PPN_1 <<< 22) ||| (vpn0 <<< 12) ||| offset)
    else
      match peek (mask32 (p1.PPN * 0x1000 + vpn0 * 4)) with
      | none => .accessFault
      | some w2 =>
        let leaf := pteOf w2
        if !leaf.V || (!leaf.R && leaf.W) then .pageFault
        else if !leaf.isLeaf then .pageFault
        else if !leaf.A || (leaf.D && is_write) then .pageFault
        else .ok (mask32 (leaf.PPN <<< 12) ||| offset)

/-!
## Exact float-to-integer truncation

The conversion cases read the float operand, convert with a C cast
(truncation toward zero) and compare back to detect inexactness.  For a
finite IEEE-754 operand both are exact bit-pattern computations: the
value is `(-1)^sign * M * 2^(E-bias-mantissa)` with `M` the mantissa
including the implicit bit. -/

/-- Truncation toward zero of a finite single bit pattern: the integer
value and whether the conversion was exact. -/
def f32TruncParts (u : Nat) : Int × Bool :=
  let e := (u >>> 23) &&& 0xff
  let frac := u &&& 0x7fffff
  let M := if e = 0 then frac else 0x800000 + frac
  let E := if e = 0 then 1 else e
  let mag : Nat := if 150 ≤ E then M <<< (E - 150) else M >>> (150 - E)
  let exact : Bool := if 150 ≤ E then true else decide (M % 2 ^ (150 - E) = 0)
  (if u.testBit 31 then -(mag : Int) else (mag : Int), exact)

/-- Truncation toward zero of a finite double bit pattern. -/
def f64TruncParts (u : Nat) : Int × Bool :=
  let e := (u >>> 52) &&& 0x7ff
  let frac := u &&& 0xfffffffffffff
  let M := if e = 0 then frac else 0x10000000000000 + frac
  let E := if e = 0 then 1 else e
  let mag : Nat := if 1075 ≤ E then M <<< (E - 1075) else M >>> (1075 - E)
  let exact : Bool := if 1075 ≤ E then true else decide (M % 2 ^ (1075 - E) = 0)
  (if (mask64 u).testBit 63 then -(mag : Int) else (mag : Int), exact)

/-- Case `Type::FCVT_W_S` of `VirtualMachine::Step`, as a function of
the low 32 bits of the operand lane: the value written to `rd` and
whether the NX flag is raised.  Infinities clamp by host sign
(`f < 0`), NaNs deliver `0x7fffffff`, both with NX; a finite operand is
truncated toward zero and raises NX exactly when inexact.  (A finite
value out of `int32_t` range is undefined behaviour in the source; the
model wraps it modulo `2^32`.) -/
def fcvtW32 (u : Nat) : Nat × Bool :=
  let c := classF32 u
  if c.is_inf then
    (if u.testBit 31 then mask32 (M32 - 1) else 0x7fffffff, true)
  else if c.is_nan || c.is_qnan then (0x7fffffff, true)
  else
    let p := f32TruncParts u
    (asUnsigned p.1, !p.2)

/-- Case `Type::FCVT_WU_S`: the unsigned variant (`-Inf` clamps to 0,
`+Inf` and NaN to `0xffffffff`). -/
def fcvtWU32 (u : Nat) : Nat × Bool :=
  let c := classF32 u
  if c.is_inf then
    (if u.testBit 31 then 0 else mask32 (M32 - 1), true)
  else if c.is_nan || c.is_qnan then (mask32 (M32 - 1), true)
  else
    let p := f32TruncParts u
    (asUnsigned p.1, !p.2)

/-- Case `Type::FCVT_W_D`: the double-operand signed conversion. -/
def fcvtW64 (u : Nat) : Nat × Bool :=
  let c := classF64 u
  if c.is_inf then
    (if (mask64 u).testBit 63 then mask32 (M32 - 1) else 0x7fffffff, true)
  else if c.is_nan || c.is_qnan then (0x7fffffff, true)
  else
    let p := f64TruncParts u
    (asUnsigned p.1, !p.2)

/-- Case `Type::FCVT_WU_D`: the double-operand unsigned conversion. -/
def fcvtWU64 (u : Nat) : Nat × Bool :=
  let c := classF64 u
  if c.is_inf then
    (if (mask64 u).testBit 63 then 0 else mask32 (M32 - 1), true)
  else if c.is_nan || c.is_qnan then (mask32 (M32 - 1), true)
  else
    let p := f64TruncParts u
    (asUnsigned p.1, !p.2)

/-!
## Instructions

`RVInstruction` (decoder output) lives in `RV32I.hpp`, which is not in
the snapshot.  Modelled from the spec: a record with an opcode tag and
the fields `rd, rs1, rs2, rs3, immediate, rm`; immediates are already
sign-extended to a 32-bit pattern; shift-immediates arrive in `rs2`;
CSR instructions carry the CSR address in `immediate` and (for the
immediate forms) the five-bit source in `rs1`. -/
inductive IType where
  | LUI | AUIPC | JAL | JALR
  | BEQ | BNE | BLT | BGE | BLTU | BGEU
  | LB | LH | LW | LBU | LHU | SB | SH | SW
  | ADDI | SLTI | SLTIU | XORI | ORI | ANDI | SLLI | SRLI | SRAI
  | ADD | SUB | SLL | SLT | SLTU | XOR | SRL | SRA | OR | AND
  | FENCE | ECALL | EBREAK
  | CSRRW | CSRRS | CSRRC | CSRRWI | CSRRSI | CSRRCI
  | MUL | MULH | MULHSU | MULHU | DIV | DIVU | REM | REMU
  | LR_W | SC_W
  | AMOSWAP_W | AMOADD_W | AMOXOR_W | AMOAND_W | AMOOR_W
  | AMOMIN_W | AMOMAX_W | AMOMINU_W | AMOMAXU_W
  | FLW | FSW
  | FMADD_S | FMSUB_S | FNMSUB_S | FNMADD_S
  | FADD_S | FSUB_S | FMUL_S | FDIV_S | FSQRT_S
  | FSGNJ_S | FSGNJN_S | FSGNJX_S | FMIN_S | FMAX_S
  | FCVT_W_S | FCVT_WU_S | FMV_X_W
  | FEQ_S | FLT_S | FLE_S | FCLASS_S
  | FCVT_S_W | FCVT_S_WU | FMV_W_X
  | FLD | FSD
  | FMADD_D | FMSUB_D | FNMSUB_D | FNMADD_D
  | FADD_D | FSUB_D | FMUL_D | FDIV_D | FSQRT_D
  | FSGNJ_D | FSGNJN_D | FSGNJX_D | FMIN_D | FMAX_D
  | FCVT_S_D | FCVT_D_S
  | FEQ_D | FLT_D | FLE_D | FCLASS_D
  | FCVT_W_D | FCVT_WU_D | FCVT_D_W | FCVT_D_WU
  | URET | SRET | MRET | WFI
  | SFENCE_VMA | SINVAL_VMA | SINVAL_GVMA | SFENCE_W_INVAL | SFENCE_INVAL_IR
  | CUST_TVA
  | INVALID
deriving Repr, DecidableEq

/-- A decoded instruction record. -/
structure Instr where
  type : IType
  rd : Nat
  rs1 : Nat
  rs2 : Nat
  rs3 : Nat
  immediate : Nat
  rm : Nat

/-- The host floating-point unit, abstracted.  Each arithmetic entry
takes the rounding-mode field and the operand bit patterns and returns
the result bit pattern together with the five host exception-flag bits
that `CheckFloatErrors` would read back (NX=1, UF=2, OF=4, DZ=8,
NV=16).  Comparison entries return the host comparison of two non-NaN
patterns.  `flwUpper` stands for the indeterminate upper 32 bits of the
fresh `Float` union that `ToFloat` builds for FLW.  The claims proved
below hold for every instantiation of this structure, so nothing about
the host FP behaviour is assumed. -/
structure FPU where
  fadd32 : Nat → Nat → Nat → Nat × Nat
  fsub32 : Nat → Nat → Nat → Nat × Nat
  fmul32 : Nat → Nat → Nat → Nat × Nat
  fdiv32 : Nat → Nat → Nat → Nat × Nat
  fmadd32 : Nat → Nat → Nat → Nat → Nat × Nat
  fmsub32 : Nat → Nat → Nat → Nat → Nat × Nat
  fnmadd32 : Nat → Nat → Nat → Nat → Nat × Nat
  fnmsub32 : Nat → Nat → Nat → Nat → Nat × Nat
  fsqrt32 : Nat → Nat → Nat
  feq32 : Nat → Nat → Bool
  flt32 : Nat → Nat → Bool
  fle32 : Nat → Nat → Bool
  fadd64 : Nat → Nat → Nat → Nat × Nat
  fsub64 : Nat → Nat → Nat → Nat × Nat
  fmul64 : Nat → Nat → Nat → Nat × Nat
  fdiv64 : Nat → Nat → Nat → Nat × Nat
  fmadd64 : Nat → Nat → Nat → Nat → Nat × Nat
  fmsub64 : Nat → Nat → Nat → Nat → Nat × Nat
  fnmadd64 : Nat → Nat → Nat → Nat → Nat × Nat
  fnmsub64 : Nat → Nat → Nat → Nat → Nat × Nat
  fsqrt64 : Nat → Nat → Nat
  feq64 : Nat → Nat → Bool
  flt64 : Nat → Nat → Bool
  fle64 : Nat → Nat → Bool
  cvtSW : Nat → Nat × Bool
  cvtSWU : Nat → Nat × Bool
  cvtDW : Nat → Nat × Bool
  cvtDWU : Nat → Nat × Bool
  cvtSD : Nat → Nat → Nat
  cvtDS : Nat → Nat
  flwUpper : Nat

/-- An installed ECALL handler: receives the hart id and the mutable
memory / integer-register / float-register context; `none` models a
handler that throws. -/
abbrev Handler : Type :=
  Nat → Mem → (Nat → Nat) → (Nat → Nat) → Option (Mem × (Nat → Nat) × (Nat → Nat))

/-- The process-wide `ecall_handlers` table, keyed by the value of
`a0`. -/
abbrev EcallTable : Type := Nat → Option Handler

/-- The canonical single NaN sentinel `RV_F32_NAN` of the source. -/
def RV_F32_NAN : Nat := 0xffffffff7fc00000
/-- `RV_F32_QNAN`. -/
def RV_F32_QNAN : Nat := 0xffffffffffc00000
/-- `RV_F64_NAN`. -/
def RV_F64_NAN : Nat := 0x7ff0000000000000
/-- `RV_F64_QNAN`. -/
def RV_F64_QNAN : Nat := 0xfff0000000000000

/-- Write integer register `rd` (a `uint32_t` store). -/
def setReg (m : Machine) (rd v : Nat) : Machine :=
  { m with regs := fun j => if j = rd then mask32 v else m.regs j }

/-- Write the low 32 bits of float lane `rd` (a store through the
`.f`/`.u32` union member), preserving the upper 32 bits. -/
def setFregLow (m : Machine) (rd v : Nat) : Machine :=
  { m with fregs := fun j => if j = rd then ((m.fregs rd >>> 32) <<< 32) ||| mask32 v else m.fregs j }

/-- Write all 64 bits of float lane `rd` (a store through `.u64`/`.d`,
or a whole-struct copy). -/
def setFreg64 (m : Machine) (rd v : Nat) : Machine :=
  { m with fregs := fun j => if j = rd then mask64 v else m.fregs j }

/-- Replace the CSR map. -/
def setCS (m : Machine) (cs : CsrMap) : Machine := { m with csrs := cs }

/-- Replace the memory bus. -/
def setMem (m : Machine) (mm : Mem) : Machine := { m with mem := mm }

/-- Write the program counter (a `uint32_t` store). -/
def setPC (m : Machine) (v : Nat) : Machine := { m with pc := mask32 v }

/-- The result of one dispatch: the machine after the case body, or the
thrown message together with the machine at the moment of the throw
(C++ exceptions leave the mutations already performed in place). -/
abbrev StepRes : Type := Except (String × Machine) Machine

/-- The common S-extension arithmetic tail: run the rounding-mode
change, the oracle operation, then `CheckFloatErrors`; on error the
destination lane receives the 64-bit canonical NaN, otherwise the low
32 bits receive the result. -/
def fpArith32 (m : Machine) (rd : Nat) (op : Nat × Nat) : StepRes :=
  let p := checkFloatErrors m.csrs op.2
  let mD := setCS m p.2
  .ok (if p.1 then setFreg64 mD rd RV_F32_NAN else setFregLow mD rd op.1)

/-- The common D-extension arithmetic tail. -/
def fpArith64 (m : Machine) (rd : Nat) (op : Nat × Nat) : StepRes :=
  let p := checkFloatErrors m.csrs op.2
  let mD := setCS m p.2
  .ok (if p.1 then setFreg64 mD rd RV_F64_NAN else setFreg64 mD rd op.1)

/-- `lhs_less` of the FMIN/FMAX cases, together with the CSR map after
the NaN-driven `SetFloatFlags` calls (exactly one operand is a NaN in
the flag-setting branches; the both-NaN case is handled before this). -/
def fminLess (cs : CsrMap) (lnan rnan lneg rneg hostLt : Bool) : Bool × CsrMap :=
  if lnan then (false, setFloatFlags cs true false false false false)
  else if rnan then (true, setFloatFlags cs true false false false false)
  else if lneg && !rneg then (true, cs)
  else if !lneg && rneg then (false, cs)
  else if hostLt then (true, cs)
  else (false, cs)

/-- The shared prefix of the five CSR read-modify cases: when
`rd != REG_ZERO`, perform the privilege-checked read and store it to
`rd`; otherwise leave the machine unchanged. -/
def csrReadRd (m : Machine) (rd imm : Nat) : Except String Machine :=
  if rd ≠ 0 then (readCSR m imm false).map (fun v => setReg m rd v) else .ok m

/-- One execution of the dispatch `switch (instr.type)` in
`VirtualMachine::Step`, transcribed case by case from the source.  The
program counter is only touched by the jump and branch cases; the
post-dispatch advance lives in `exec1`. -/
def dispatch (fpu : FPU) (tbl : EcallTable) (i : Instr) (m : Machine) : StepRes :=
  match i.type with
  | .LUI => .ok (setReg m i.rd i.immediate)
  | .AUIPC => .ok (setReg m i.rd (m.pc + i.immediate))
  | .JAL => .ok (setReg (setPC m (m.pc + i.immediate)) i.rd (m.pc + 4))
  | .JALR =>
    .ok (setReg (setPC m (mask32 (m.regs i.rs1 + i.immediate) &&& 0xfffffffe)) i.rd (m.pc + 4))
  | .BEQ =>
    .ok (setPC m (if m.regs i.rs1 == m.regs i.rs2 then m.pc + i.immediate else m.pc + 4))
  | .BNE =>
    .ok (setPC m (if m.regs i.rs1 != m.regs i.rs2 then m.pc + i.immediate else m.pc + 4))
  | .BLT =>
    .ok (setPC m (if asSigned (m.regs i.rs1) < asSigned (m.regs i.rs2) then m.pc + i.immediate else m.pc + 4))
  | .BGE =>
    .ok (setPC m (if asSigned (m.regs i.rs2) ≤ asSigned (m.regs i.rs1) then m.pc + i.immediate else m.pc + 4))
  | .BLTU =>
    .ok (setPC m (if m.regs i.rs1 < m.regs i.rs2 then m.pc + i.immediate else m.pc + 4))
  | .BGEU =>
    .ok (setPC m (if m.regs i.rs2 ≤ m.regs i.rs1 then m.pc + i.immediate else m.pc + 4))
  | .LB =>
    match memReadByte m.mem (m.regs i.rs1 + i.immediate) with
    | none => .error ("Memory read fault", m)
    | some b => .ok (setReg m i.rd (signExtend b 7))
  | .LH =>
    match memReadHalf m.mem (m.regs i.rs1 + i.immediate) with
    | none => .error ("Memory read fault", m)
    | some h => .ok (setReg m i.rd (signExtend h 15))
  | .LW =>
    match memReadWord m.mem (m.regs i.rs1 + i.immediate) with
    | none => .error ("Memory read fault", m)
    | some w => .ok (setReg m i.rd w)
  | .LBU =>
    match memReadByte m.mem (m.regs i.rs1 + i.immediate) with
    | none => .error ("Memory read fault", m)
    | some b => .ok (setReg m i.rd b)
  | .LHU =>
    match memReadHalf m.mem (m.regs i.rs1 + i.immediate) with
    | none => .error ("Memory read fault", m)
    | some h => .ok (setReg m i.rd h)
  | .SB =>
    match memWriteByte m.mem (m.regs i.rs1 + i.immediate) (m.regs i.rs2) with
    | none => .error ("Memory write fault", m)
    | some mm => .ok (setMem m mm)
  | .SH =>
    match memWriteHalf m.mem (m.regs i.rs1 + i.immediate) (m.regs i.rs2) with
    | none => .error ("Memory write fault", m)
    | some mm => .ok (setMem m mm)
  | .SW =>
    match memWriteWord m.mem (m.regs i.rs1 + i.immediate) (m.regs i.rs2) with
    | none => .error ("Memory write fault", m)
    | some mm => .ok (setMem m mm)
  | .ADDI => .ok (setReg m i.rd (m.regs i.rs1 + i.immediate))
  | .SLTI => .ok (setReg m i.rd (if asSigned (m.regs i.rs1) < asSigned i.immediate then 1 else 0))
  | .SLTIU => .ok (setReg m i.rd (if m.regs i.rs1 < i.immediate then 1 else 0))
  | .XORI => .ok (setReg m i.rd (m.regs i.rs1 ^^^ i.immediate))
  | .ORI => .ok (setReg m i.rd (m.regs i.rs1 ||| i.immediate))
  | .ANDI => .ok (setReg m i.rd (m.regs i.rs1 &&& i.immediate))
  | .SLLI => .ok (setReg m i.rd (m.regs i.rs1 <<< i.rs2))
  | .SRLI => .ok (setReg m i.rd (m.regs i.rs1 >>> i.rs2))
  | .SRAI => .ok (setReg m i.rd (sra32code (m.regs i.rs1) i.rs2))
  | .ADD => .ok (setReg m i.rd (m.regs i.rs1 + m.regs i.rs2))
  | .SUB => .ok (setReg m i.rd (sub32 (m.regs i.rs1) (m.regs i.rs2)))
  | .SLL => .ok (setReg m i.rd (m.regs i.rs1 <<< (m.regs i.rs2 &&& 0x1f)))
  | .SLT => .ok (setReg m i.rd (if asSigned (m.regs i.rs1) < asSigned (m.regs i.rs2) then 1 else 0))
  | .SLTU => .ok (setReg m i.rd (if m.regs i.rs1 < m.regs i.rs2 then 1 else 0))
  | .XOR => .ok (setReg m i.rd (m.regs i.rs1 ^^^ m.regs i.rs2))
  | .SRL => .ok (setReg m i.rd (m.regs i.rs1 >>> (m.regs i.rs2 &&& 0x1f)))
  | .SRA => .ok (setReg m i.rd (sra32code (m.regs i.rs1) (m.regs i.rs2 &&& 0x1f)))
  | .OR => .ok (setReg m i.rd (m.regs i.rs1 ||| m.regs i.rs2))
  | .AND => .ok (setReg m i.rd (m.regs i.rs1 &&& m.regs i.rs2))
  | .FENCE => .ok m
  | .ECALL =>
    let p := csrGetD m.csrs CSR_MHARTID
    let mC := setCS m p.2
    match tbl (m.regs 10) with
    | none => .error ("Unknown ECall handler", mC)
    | some h =>
      match h p.1 mC.mem mC.regs mC.fregs with
      | none => .error ("ECall handler fault", mC)
      | some r => .ok { mC with mem := r.1, regs := r.2.1, fregs := r.2.2 }
  | .EBREAK => .ok m
  | .CSRRW =>
    let value := m.regs i.rs1
    if i.rd ≠ 0 then
      match readCSR m i.immediate false with
      | .error e => .error (e, m)
      | .ok v =>
        let m1 := setReg m i.rd v
        match writeCSR m1 i.immediate value with
        | .error e => .error (e, m1)
        | .ok cs => .ok (setCS m1 cs)
    else
      match writeCSR m i.immediate value with
      | .error e => .error (e, m)
      | .ok cs => .ok (setCS m cs)
  | .CSRRS =>
    let value := m.regs i.rs1
    match csrReadRd m i.rd i.immediate with
    | .error e => .error (e, m)
    | .ok m1 =>
      if i.rs1 ≠ 0 then
        match readCSR m1 i.immediate true with
        | .error e => .error (e, m1)
        | .ok cur =>
          match writeCSR m1 i.immediate (cur ||| value) with
          | .error e => .error (e, m1)
          | .ok cs => .ok (setCS m1 cs)
      else .ok m1
  | .CSRRC =>
    let value := m.regs i.rs1
    match csrReadRd m i.rd i.immediate with
    | .error e => .error (e, m)
    | .ok m1 =>
      if i.rs1 ≠ 0 then
        match readCSR m1 i.immediate true with
        | .error e => .error (e, m1)
        | .ok cur =>
          match writeCSR m1 i.immediate (cur &&& (mask32 (M32 - 1) ^^^ mask32 value)) with
          | .error e => .error (e, m1)
          | .ok cs => .ok (setCS m1 cs)
      else .ok m1
  | .CSRRWI =>
    let value := i.rs1
    match csrReadRd m i.rd i.immediate with
    | .error e => .error (e, m)
    | .ok m1 =>
      match writeCSR m1 i.immediate value with
      | .error e => .error (e, m1)
      | .ok cs => .ok (setCS m1 cs)
  | .CSRRSI =>
    let value := i.rs1
    match csrReadRd m i.rd i.immediate with
    | .error e => .error (e, m)
    | .ok m1 =>
      match readCSR m1 i.immediate true with
      | .error e => .error (e, m1)
      | .ok cur =>
        match writeCSR m1 i.immediate (cur ||| value) with
        | .error e => .error (e, m1)
        | .ok cs => .ok (setCS m1 cs)
  | .CSRRCI =>
    let value := i.rs1
    match csrReadRd m i.rd i.immediate with
    | .error e => .error (e, m)
    | .ok m1 =>
      match readCSR m1 i.immediate true with
      | .error e => .error (e, m1)
      | .ok cur =>
        match writeCSR m1 i.immediate (cur &&& (mask32 (M32 - 1) ^^^ mask32 value)) with
        | .error e => .error (e, m1)
        | .ok cs => .ok (setCS m1 cs)
  | .MUL => .ok (setReg m i.rd (asUnsigned (asSigned (m.regs i.rs1) * asSigned (m.regs i.rs2))))
  | .MULH =>
    .ok (setReg m i.rd (asUnsigned ((asSigned (m.regs i.rs1) * asSigned (m.regs i.rs2)).fdiv (M32 : Int))))
  | .MULHSU =>
    .ok (setReg m i.rd (asUnsigned ((asSigned (m.regs i.rs1) * (m.regs i.rs2 : Int)).fdiv (M32 : Int))))
  | .MULHU => .ok (setReg m i.rd ((m.regs i.rs1 * m.regs i.rs2) >>> 32))
  | .DIV =>
    if asSigned (m.regs i.rs2) = 0 then .error ("Div by zero is not handled yet", m)
    else .ok (setReg m i.rd (asUnsigned ((asSigned (m.regs i.rs1)).tdiv (asSigned (m.regs i.rs2)))))
  | .DIVU =>
    if m.regs i.rs2 = 0 then .error ("Div by zero is not handled yet", m)
    else .ok (setReg m i.rd (m.regs i.rs1 / m.regs i.rs2))
  | .REM =>
    if asSigned (m.regs i.rs2) = 0 then .error ("Div by zero is not handled yet", m)
    else .ok (setReg m i.rd (asUnsigned ((asSigned (m.regs i.rs1)).tmod (asSigned (m.regs i.rs2)))))
  | .REMU =>
    if m.regs i.rs2 = 0 then .error ("Div by zero is not handled yet", m)
    else .ok (setReg m i.rd (m.regs i.rs1 % m.regs i.rs2))
  | .LR_W =>
    if i.rs2 ≠ 0 then .error ("Invalid instruction", m)
    else
      let p := csrGetD m.csrs CSR_MHARTID
      let mC := setCS m p.2
      match memReadWordReserved mC.mem (m.regs i.rs1) p.1 with
      | none => .error ("Memory read fault", mC)
      | some r => .ok (setReg (setMem mC r.2) i.rd r.1)
  | .SC_W =>
    let p := csrGetD m.csrs CSR_MHARTID
    let mC := setCS m p.2
    let r := memWriteWordConditional mC.mem (m.regs i.rs1) (m.regs i.rs2) p.1
    .ok (setReg (setMem mC r.2) i.rd (if r.1 then 0 else 1))
  | .AMOSWAP_W =>
    match memAtomic m.mem (m.regs i.rs1) (m.regs i.rs2) (fun _ v => v) with
    | none => .error ("Memory fault", m)
    | some r => .ok (setReg (setMem m r.2) i.rd r.1)
  | .AMOADD_W =>
    match memAtomic m.mem (m.regs i.rs1) (m.regs i.rs2) (fun w v => w + v) with
    | none => .error ("Memory fault", m)
    | some r => .ok (setReg (setMem m r.2) i.rd r.1)
  | .AMOXOR_W =>
    match memAtomic m.mem (m.regs i.rs1) (m.regs i.rs2) (fun w v => w ^^^ v) with
    | none => .error ("Memory fault", m)
    | some r => .ok (setReg (setMem m r.2) i.rd r.1)
  | .AMOAND_W =>
    match memAtomic m.mem (m.regs i.rs1) (m.regs i.rs2) (fun w v => w &&& v) with
    | none => .error ("Memory fault", m)
    | some r => .ok (setReg (setMem m r.2) i.rd r.1)
  | .AMOOR_W =>
    match memAtomic m.mem (m.regs i.rs1) (m.regs i.rs2) (fun w v => w ||| v) with
    | none => .error ("Memory fault", m)
    | some r => .ok (setReg (setMem m r.2) i.rd r.1)
  | .AMOMIN_W =>
    match memAtomic m.mem (m.regs i.rs1) (m.regs i.rs2)
        (fun w v => if asSigned w ≤ asSigned v then w else v) with
    | none => .error ("Memory fault", m)
    | some r => .ok (setReg (setMem m r.2) i.rd r.1)
  | .AMOMAX_W =>
    match memAtomic m.mem (m.regs i.rs1) (m.regs i.rs2)
        (fun w v => if asSigned w ≤ asSigned v then v else w) with
    | none => .error ("Memory fault", m)
    | some r => .ok (setReg (setMem m r.2) i.rd r.1)
  | .AMOMINU_W =>
    match memAtomic m.mem (m.regs i.rs1) (m.regs i.rs2) (fun w v => min w v) with
    | none => .error ("Memory fault", m)
    | some r => .ok (setReg (setMem m r.2) i.rd r.1)
  | .AMOMAXU_W =>
    match memAtomic m.mem (m.regs i.rs1) (m.regs i.rs2) (fun w v => max w v) with
    | none => .error ("Memory fault", m)
    | some r => .ok (setReg (setMem m r.2) i.rd r.1)
  | .FLW =>
    match memReadWord m.mem (m.regs i.rs1 + i.immediate) with
    | none => .error ("Memory read fault", m)
    | some w => .ok (setFreg64 m i.rd ((mask32 fpu.flwUpper <<< 32) ||| w))
  | .FSW =>
    match memWriteWord m.mem (m.regs i.rs1 + i.immediate) (mask32 (m.fregs i.rs2)) with
    | none => .error ("Memory write fault", m)
    | some mm => .ok (setMem m mm)
  | .FMADD_S =>
    let q := changeRM m.csrs i.rm
    let mC := setCS m q.2
    if !q.1 then .error ("Invalid instruction", mC)
    else if (classF32 (mask32 (m.fregs i.rs1))).is_inf && (classF32 (mask32 (m.fregs i.rs2))).is_zero then
      .error ("Invalid instruction", mC)
    else fpArith32 mC i.rd
      (fpu.fmadd32 i.rm (mask32 (m.fregs i.rs1)) (mask32 (m.fregs i.rs2)) (mask32 (m.fregs i.rs3)))
  | .FMSUB_S =>
    let q := changeRM m.csrs i.rm
    let mC := setCS m q.2
    if !q.1 then .error ("Invalid instruction", mC)
    else if (classF32 (mask32 (m.fregs i.rs1))).is_inf && (classF32 (mask32 (m.fregs i.rs2))).is_zero then
      .error ("Invalid instruction", mC)
    else fpArith32 mC i.rd
      (fpu.fmsub32 i.rm (mask32 (m.fregs i.rs1)) (mask32 (m.fregs i.rs2)) (mask32 (m.fregs i.rs3)))
  | .FNMSUB_S =>
    let q := changeRM m.csrs i.rm
    let mC := setCS m q.2
    if !q.1 then .error ("Invalid instruction", mC)
    else if (classF32 (mask32 (m.fregs i.rs1))).is_inf && (classF32 (mask32 (m.fregs i.rs2))).is_zero then
      .error ("Invalid instruction", mC)
    else fpArith32 mC i.rd
      (fpu.fnmsub32 i.rm (mask32 (m.fregs i.rs1)) (mask32 (m.fregs i.rs2)) (mask32 (m.fregs i.rs3)))
  | .FNMADD_S =>
    let q := changeRM m.csrs i.rm
    let mC := setCS m q.2
    if !q.1 then .error ("Invalid instruction", mC)
    else if (classF32 (mask32 (m.fregs i.rs1))).is_inf && (classF32 (mask32 (m.fregs i.rs2))).is_zero then
      .error ("Invalid instruction", mC)
    else fpArith32 mC i.rd
      (fpu.fnmadd32 i.rm (mask32 (m.fregs i.rs1)) (mask32 (m.fregs i.rs2)) (mask32 (m.fregs i.rs3)))
  | .FADD_S =>
    let q := changeRM m.csrs i.rm
    let mC := setCS m q.2
    if !q.1 then .error ("Invalid instruction", mC)
    else fpArith32 mC i.rd (fpu.fadd32 i.rm (mask32 (m.fregs i.rs1)) (mask32 (m.fregs i.rs2)))
  | .FSUB_S =>
    let q := changeRM m.csrs i.rm
    let mC := setCS m q.2
    if !q.1 then .error ("Invalid instruction", mC)
    else fpArith32 mC i.rd (fpu.fsub32 i.rm (mask32 (m.fregs i.rs1)) (mask32 (m.fregs i.rs2)))
  | .FMUL_S =>
    let q := changeRM m.csrs i.rm
    let mC := setCS m q.2
    if !q.1 then .error ("Invalid instruction", mC)
    else fpArith32 mC i.rd (fpu.fmul32 i.rm (mask32 (m.fregs i.rs1)) (mask32 (m.fregs i.rs2)))
  | .FDIV_S =>
    let q := changeRM m.csrs i.rm
    let mC := setCS m q.2
    if !q.1 then .error ("Invalid instruction", mC)
    else fpArith32 mC i.rd (fpu.fdiv32 i.rm (mask32 (m.fregs i.rs1)) (mask32 (m.fregs i.rs2)))
  | .FSQRT_S =>
    let q := changeRM m.csrs i.rm
    let mC := setCS m q.2
    if !q.1 then .error ("Invalid instruction", mC)
    else
      let c := classF32 (mask32 (m.fregs i.rs1))
      if c.is_inf || c.is_nan || c.is_qnan || c.is_neg then .ok (setFreg64 mC i.rd RV_F32_NAN)
      else .ok (setFregLow mC i.rd (fpu.fsqrt32 i.rm (mask32 (m.fregs i.rs1))))
  | .FSGNJ_S =>
    let a := m.fregs i.rs1
    let b := m.fregs i.rs2
    .ok (setFreg64 m i.rd (((a >>> 32) <<< 32) ||| ((mask32 a &&& 0x7fffffff) ||| (mask32 b &&& 0x80000000))))
  | .FSGNJN_S =>
    let a := m.fregs i.rs1
    let b := m.fregs i.rs2
    .ok (setFreg64 m i.rd
      (((a >>> 32) <<< 32) ||| ((mask32 a &&& 0x7fffffff) ||| ((mask32 b ^^^ mask32 (M32 - 1)) &&& 0x80000000))))
  | .FSGNJX_S =>
    let a := m.fregs i.rs1
    let b := m.fregs i.rs2
    .ok (setFreg64 m i.rd (((a >>> 32) <<< 32) ||| (mask32 a ^^^ (mask32 b &&& 0x80000000))))
  | .FMIN_S =>
    let ca := classF32 (mask32 (m.fregs i.rs1))
    let cb := classF32 (mask32 (m.fregs i.rs2))
    let lnan := ca.is_nan || ca.is_qnan
    let rnan := cb.is_nan || cb.is_qnan
    if lnan && rnan then
      .ok (setFreg64 (setCS m (setFloatFlags m.csrs true false false false false)) i.rd RV_F32_NAN)
    else
      let p := fminLess m.csrs lnan rnan ca.is_neg cb.is_neg
        (fpu.flt32 (mask32 (m.fregs i.rs1)) (mask32 (m.fregs i.rs2)))
      .ok (setFreg64 (setCS m p.2) i.rd (if p.1 then m.fregs i.rs1 else m.fregs i.rs2))
  | .FMAX_S =>
    let ca := classF32 (mask32 (m.fregs i.rs1))
    let cb := classF32 (mask32 (m.fregs i.rs2))
    let lnan := ca.is_nan || ca.is_qnan
    let rnan := cb.is_nan || cb.is_qnan
    if lnan && rnan then
      .ok (setFreg64 (setCS m (setFloatFlags m.csrs true false false false false)) i.rd RV_F32_NAN)
    else
      let p := fminLess m.csrs lnan rnan ca.is_neg cb.is_neg
        (fpu.flt32 (mask32 (m.fregs i.rs1)) (mask32 (m.fregs i.rs2)))
      .ok (setFreg64 (setCS m p.2) i.rd (if p.1 then m.fregs i.rs2 else m.fregs i.rs1))
  | .FCVT_W_S =>
    let q := changeRM m.csrs i.rm
    let mC := setCS m q.2
    if !q.1 then .error ("Invalid instruction", mC)
    else
      let p := fcvtW32 (mask32 (m.fregs i.rs1))
      let cs2 := if p.2 then setFloatFlags mC.csrs false false false false true else mC.csrs
      .ok (setReg (setCS mC cs2) i.rd p.1)
  | .FCVT_WU_S =>
    let q := changeRM m.csrs i.rm
    let mC := setCS m q.2
    if !q.1 then .error ("Invalid instruction", mC)
    else
      let p := fcvtWU32 (mask32 (m.fregs i.rs1))
      let cs2 := if p.2 then setFloatFlags mC.csrs false false false false true else mC.csrs
      .ok (setReg (setCS mC cs2) i.rd p.1)
  | .FMV_X_W => .ok (setReg m i.rd (mask32 (m.fregs i.rs1)))
  | .FEQ_S =>
    let q := changeRM m.csrs i.rm
    let mC := setCS m q.2
    if !q.1 then .error ("Invalid instruction", mC)
    else
      let ca := classF32 (mask32 (m.fregs i.rs1))
      let cb := classF32 (mask32 (m.fregs i.rs2))
      let cs2 := if ca.is_nan || cb.is_nan then setFloatFlags mC.csrs true false false false false else mC.csrs
      let v := if ca.is_nan || cb.is_nan || ca.is_qnan || cb.is_qnan then 0
        else if fpu.feq32 (mask32 (m.fregs i.rs1)) (mask32 (m.fregs i.rs2)) then 1 else 0
      .ok (setReg (setCS mC cs2) i.rd v)
  | .FLT_S =>
    let q := changeRM m.csrs i.rm
    let mC := setCS m q.2
    if !q.1 then .error ("Invalid instruction", mC)
    else
      let ca := classF32 (mask32 (m.fregs i.rs1))
      let cb := classF32 (mask32 (m.fregs i.rs2))
      if ca.is_nan || cb.is_nan || ca.is_qnan || cb.is_qnan then
        .ok (setReg (setCS mC (setFloatFlags mC.csrs true false false false false)) i.rd 0)
      else .ok (setReg mC i.rd (if fpu.flt32 (mask32 (m.fregs i.rs1)) (mask32 (m.fregs i.rs2)) then 1 else 0))
  | .FLE_S =>
    let q := changeRM m.csrs i.rm
    let mC := setCS m q.2
    if !q.1 then .error ("Invalid instruction", mC)
    else
      let ca := classF32 (mask32 (m.fregs i.rs1))
      let cb := classF32 (mask32 (m.fregs i.rs2))
      if ca.is_nan || cb.is_nan || ca.is_qnan || cb.is_qnan then
        .ok (setReg (setCS mC (setFloatFlags mC.csrs true false false false false)) i.rd 0)
      else .ok (setReg mC i.rd (if fpu.fle32 (mask32 (m.fregs i.rs1)) (mask32 (m.fregs i.rs2)) then 1 else 0))
  | .FCLASS_S =>
    let q := changeRM m.csrs i.rm
    let mC := setCS m q.2
    if !q.1 then .error ("Invalid instruction", mC)
    else .ok (setReg mC i.rd (fclassS (mask32 (m.fregs i.rs1))))
  | .FCVT_S_W =>
    let p := fpu.cvtSW (m.regs i.rs1)
    let m1 := setFregLow m i.rd p.1
    .ok (if !p.2 then setCS m1 (setFloatFlags m1.csrs true false false false false) else m1)
  | .FCVT_S_WU =>
    let p := fpu.cvtSWU (m.regs i.rs1)
    let m1 := setFregLow m i.rd p.1
    .ok (if !p.2 then setCS m1 (setFloatFlags m1.csrs true false false false false) else m1)
  | .FMV_W_X => .ok (setFreg64 m i.rd (mask32 (m.regs i.rs1)))
  | .FLD =>
    match memReadWord m.mem (m.regs i.rs1 + i.immediate) with
    | none => .error ("Memory read fault", m)
    | some w1 =>
      match memReadWord m.mem (mask32 (m.regs i.rs1 + i.immediate) + 4) with
      | none => .error ("Memory read fault", m)
      | some w2 => .ok (setFreg64 m i.rd (w1 ||| (w2 <<< 32)))
  | .FSD =>
    match memWriteWord m.mem (m.regs i.rs1 + i.immediate) (mask64 (m.fregs i.rs2)) with
    | none => .error ("Memory write fault", m)
    | some m1 =>
      match memWriteWord m1 (mask32 (m.regs i.rs1 + i.immediate) + 4) (mask64 (m.fregs i.rs2) >>> 32) with
      | none => .error ("Memory write fault", setMem m m1)
      | some m2 => .ok (setMem m m2)
  | .FMADD_D =>
    let q := changeRM m.csrs i.rm
    let mC := setCS m q.2
    if !q.1 then .error ("Invalid instruction", mC)
    else if (classF64 (m.fregs i.rs1)).is_inf && (classF64 (m.fregs i.rs2)).is_zero then
      .error ("Invalid instruction", mC)
    else fpArith64 mC i.rd (fpu.fmadd64 i.rm (m.fregs i.rs1) (m.fregs i.rs2) (m.fregs i.rs3))
  | .FMSUB_D =>
    let q := changeRM m.csrs i.rm
    let mC := setCS m q.2
    if !q.1 then .error ("Invalid instruction", mC)
    else if (classF64 (m.fregs i.rs1)).is_inf && (classF64 (m.fregs i.rs2)).is_zero then
      .error ("Invalid instruction", mC)
    else fpArith64 mC i.rd (fpu.fmsub64 i.rm (m.fregs i.rs1) (m.fregs i.rs2) (m.fregs i.rs3))
  | .FNMSUB_D =>
    let q := changeRM m.csrs i.rm
    let mC := setCS m q.2
    if !q.1 then .error ("Invalid instruction", mC)
    else if (classF64 (m.fregs i.rs1)).is_inf && (classF64 (m.fregs i.rs2)).is_zero then
      .error ("Invalid instruction", mC)
    else fpArith64 mC i.rd (fpu.fnmsub64 i.rm (m.fregs i.rs1) (m.fregs i.rs2) (m.fregs i.rs3))
  | .FNMADD_D =>
    let q := changeRM m.csrs i.rm
    let mC := setCS m q.2
    if !q.1 then .error ("Invalid instruction", mC)
    else if (classF64 (m.fregs i.rs1)).is_inf && (classF64 (m.fregs i.rs2)).is_zero then
      .error ("Invalid instruction", mC)
    else fpArith64 mC i.rd (fpu.fnmadd64 i.rm (m.fregs i.rs1) (m.fregs i.rs2) (m.fregs i.rs3))
  | .FADD_D =>
    let q := changeRM m.csrs i.rm
    let mC := setCS m q.2
    if !q.1 then .error ("Invalid instruction", mC)
    else fpArith64 mC i.rd (fpu.fadd64 i.rm (m.fregs i.rs1) (m.fregs i.rs2))
  | .FSUB_D =>
    let q := changeRM m.csrs i.rm
    let mC := setCS m q.2
    if !q.1 then .error ("Invalid instruction", mC)
    else fpArith64 mC i.rd (fpu.fsub64 i.rm (m.fregs i.rs1) (m.fregs i.rs2))
  | .FMUL_D =>
    let q := changeRM m.csrs i.rm
    let mC := setCS m q.2
    if !q.1 then .error ("Invalid instruction", mC)
    else fpArith64 mC i.rd (fpu.fmul64 i.rm (m.fregs i.rs1) (m.fregs i.rs2))
  | .FDIV_D =>
    let q := changeRM m.csrs i.rm
    let mC := setCS m q.2
    if !q.1 then .error ("Invalid instruction", mC)
    else fpArith64 mC i.rd (fpu.fdiv64 i.rm (m.fregs i.rs1) (m.fregs i.rs2))
  | .FSQRT_D =>
    let q := changeRM m.csrs i.rm
    let mC := setCS m q.2
    if !q.1 then .error ("Invalid instruction", mC)
    else
      let c := classF64 (m.fregs i.rs1)
      if c.is_inf || c.is_nan || c.is_qnan || c.is_neg then .ok (setFreg64 mC i.rd RV_F64_NAN)
      else .ok (setFreg64 mC i.rd (fpu.fsqrt64 i.rm (m.fregs i.rs1)))
  | .FSGNJ_D =>
    let a := mask64 (m.fregs i.rs1)
    let b := mask64 (m.fregs i.rs2)
    .ok (setFreg64 m i.rd ((a &&& 0x7fffffffffffffff) ||| (b &&& 0x8000000000000000)))
  | .FSGNJN_D =>
    let a := mask64 (m.fregs i.rs1)
    let b := mask64 (m.fregs i.rs2)
    .ok (setFreg64 m i.rd ((a &&& 0x7fffffffffffffff) ||| ((b ^^^ mask64 (M64 - 1)) &&& 0x8000000000000000)))
  | .FSGNJX_D =>
    let a := mask64 (m.fregs i.rs1)
    let b := mask64 (m.fregs i.rs2)
    .ok (setFreg64 m i.rd (a ^^^ (b &&& 0x8000000000000000)))
  | .FMIN_D =>
    let ca := classF64 (m.fregs i.rs1)
    let cb := classF64 (m.fregs i.rs2)
    let lnan := ca.is_nan || ca.is_qnan
    let rnan := cb.is_nan || cb.is_qnan
    if lnan && rnan then
      .ok (setFreg64 (setCS m (setFloatFlags m.csrs true false false false false)) i.rd RV_F64_NAN)
    else
      let p := fminLess m.csrs lnan rnan ca.is_neg cb.is_neg (fpu.flt64 (m.fregs i.rs1) (m.fregs i.rs2))
      .ok (setFreg64 (setCS m p.2) i.rd (if p.1 then m.fregs i.rs1 else m.fregs i.rs2))
  | .FMAX_D =>
    let ca := classF64 (m.fregs i.rs1)
    let cb := classF64 (m.fregs i.rs2)
    let lnan := ca.is_nan || ca.is_qnan
    let rnan := cb.is_nan || cb.is_qnan
    if lnan && rnan then
      .ok (setFreg64 (setCS m (setFloatFlags m.csrs true false false false false)) i.rd RV_F64_NAN)
    else
      let p := fminLess m.csrs lnan rnan ca.is_neg cb.is_neg (fpu.flt64 (m.fregs i.rs1) (m.fregs i.rs2))
      .ok (setFreg64 (setCS m p.2) i.rd (if p.1 then m.fregs i.rs2 else m.fregs i.rs1))
  | .FCVT_S_D =>
    let q := changeRM m.csrs i.rm
    let mC := setCS m q.2
    if !q.1 then .error ("Invalid instruction", mC)
    else
      let c := classF64 (m.fregs i.rs1)
      if c.is_nan then .ok (setFreg64 mC i.rd RV_F32_NAN)
      else if c.is_qnan then .ok (setFreg64 mC i.rd RV_F32_QNAN)
      else .ok (setFreg64 mC i.rd (mask32 (fpu.cvtSD i.rm (m.fregs i.rs1))))
  | .FCVT_D_S =>
    let c := classF32 (mask32 (m.fregs i.rs1))
    if c.is_nan then .ok (setFreg64 m i.rd RV_F64_NAN)
    else if c.is_qnan then .ok (setFreg64 m i.rd RV_F64_QNAN)
    else .ok (setFreg64 m i.rd (fpu.cvtDS (mask32 (m.fregs i.rs1))))
  | .FEQ_D =>
    let q := changeRM m.csrs i.rm
    let mC := setCS m q.2
    if !q.1 then .error ("Invalid instruction", mC)
    else
      let ca := classF64 (m.fregs i.rs1)
      let cb := classF64 (m.fregs i.rs2)
      let cs2 := if ca.is_nan || cb.is_nan then setFloatFlags mC.csrs true false false false false else mC.csrs
      let v := if ca.is_nan || cb.is_nan || ca.is_qnan || cb.is_qnan then 0
        else if fpu.feq64 (m.fregs i.rs1) (m.fregs i.rs2) then 1 else 0
      .ok (setReg (setCS mC cs2) i.rd v)
  | .FLT_D =>
    let q := changeRM m.csrs i.rm
    let mC := setCS m q.2
    if !q.1 then .error ("Invalid instruction", mC)
    else
      let ca := classF64 (m.fregs i.rs1)
      let cb := classF64 (m.fregs i.rs2)
      if ca.is_nan || cb.is_nan || ca.is_qnan || cb.is_qnan then
        .ok (setReg (setCS mC (setFloatFlags mC.csrs true false false false false)) i.rd 0)
      else .ok (setReg mC i.rd (if fpu.flt64 (m.fregs i.rs1) (m.fregs i.rs2) then 1 else 0))
  | .FLE_D =>
    let q := changeRM m.csrs i.rm
    let mC := setCS m q.2
    if !q.1 then .error ("Invalid instruction", mC)
    else
      let ca := classF64 (m.fregs i.rs1)
      let cb := classF64 (m.fregs i.rs2)
      if ca.is_nan || cb.is_nan || ca.is_qnan || cb.is_qnan then
        .ok (setReg (setCS mC (setFloatFlags mC.csrs true false false false false)) i.rd 0)
      else .ok (setReg mC i.rd (if fpu.fle64 (m.fregs i.rs1) (m.fregs i.rs2) then 1 else 0))
  | .FCLASS_D =>
    let q := changeRM m.csrs i.rm
    let mC := setCS m q.2
    if !q.1 then .error ("Invalid instruction", mC)
    else
      let c := classF64 (m.fregs i.rs1)
      let r0 := if c.is_inf && c.is_neg then 1 else 0
      let r1 := if !c.is_subnormal && c.is_neg then 2 else 0
      let r2 := if c.is_subnormal && c.is_neg then 4 else 0
      let r3 := if c.is_zero && c.is_neg then 8 else 0
      let r4 := if c.is_zero && !c.is_neg then 16 else 0
      let r5 := if c.is_subnormal && !c.is_neg then 32 else 0
      let r6 := if !c.is_subnormal && !c.is_nan then 64 else 0
      let r7 := if c.is_inf && !c.is_neg then 128 else 0
      let r8 := if c.is_nan then 256 else 0
      let r9 := if c.is_qnan then 512 else 0
      .ok (setReg mC i.rd (r0 ||| r1 ||| r2 ||| r3 ||| r4 ||| r5 ||| r6 ||| r7 ||| r8 ||| r9))
  | .FCVT_W_D =>
    let q := changeRM m.csrs i.rm
    let mC := setCS m q.2
    if !q.1 then .error ("Invalid instruction", mC)
    else
      let p := fcvtW64 (m.fregs i.rs1)
      let cs2 := if p.2 then setFloatFlags mC.csrs false false false false true else mC.csrs
      .ok (setReg (setCS mC cs2) i.rd p.1)
  | .FCVT_WU_D =>
    let q := changeRM m.csrs i.rm
    let mC := setCS m q.2
    if !q.1 then .error ("Invalid instruction", mC)
    else
      let p := fcvtWU64 (m.fregs i.rs1)
      let cs2 := if p.2 then setFloatFlags mC.csrs false false false false true else mC.csrs
      .ok (setReg (setCS mC cs2) i.rd p.1)
  | .FCVT_D_W =>
    let p := fpu.cvtDW (m.regs i.rs1)
    let m1 := setFreg64 m i.rd p.1
    .ok (if !p.2 then setCS m1 (setFloatFlags m1.csrs true false false false false) else m1)
  | .FCVT_D_WU =>
    let p := fpu.cvtDWU (m.regs i.rs1)
    let m1 := setFreg64 m i.rd p.1
    .ok (if !p.2 then setCS m1 (setFloatFlags m1.csrs true false false false false) else m1)
  | .URET => .error ("Instruction not implemented", m)
  | .SRET => .error ("Instruction not implemented", m)
  | .MRET => .error ("Instruction not implemented", m)
  | .WFI => .error ("Instruction not implemented", m)
  | .SFENCE_VMA => .error ("Instruction not implemented", m)
  | .SINVAL_VMA => .error ("Instruction not implemented", m)
  | .SINVAL_GVMA => .error ("Instruction not implemented", m)
  | .SFENCE_W_INVAL => .error ("Instruction not implemented", m)
  | .SFENCE_INVAL_IR => .error ("Instruction not implemented", m)
  | .CUST_TVA =>
    match csrLookup m.csrs CSR_SATP with
    | none => .error ("Invalid CSR", m)
    | some satp =>
      match translateMemoryAddress (memPeekWord m.mem) satp (m.regs i.rs1) false with
      | .error e => .error (e, m)
      | .ok pa => .ok (setReg m i.rd pa)
  | .INVALID => .error ("Invalid instruction", m)

/-- The instruction tags excluded from the post-dispatch `pc += 4`
(the second `switch` of `VirtualMachine::Step`): they have written `pc`
themselves. -/
def writesPcDirectly : IType → Bool
  | .JAL | .JALR | .BEQ | .BGE | .BGEU | .BLT | .BLTU | .BNE => true
  | _ => false

/-- One executed instruction after a successful fetch: dispatch, the
conditional `pc += 4`, and the final `if (instr.rd == 0) regs[0] = 0`
reset. -/
def exec1 (fpu : FPU) (tbl : EcallTable) (i : Instr) (m : Machine) : StepRes :=
  match dispatch fpu tbl i m with
  | .error e => .error e
  | .ok m1 =>
    let m2 := if writesPcDirectly i.type then m1 else { m1 with pc := mask32 (m1.pc + 4) }
    .ok (if i.rd = 0 then { m2 with regs := fun j => if j = 0 then 0 else m2.regs j } else m2)

/-- One iteration of the step loop of `VirtualMachine::Step`:
increment `cycles`, check `pc` alignment, fetch through the
allow-everything `CheckMemoryAccess`, decode (`dec`, standing for
`RVInstruction::FromUInt32` whose source is not in the snapshot), and
execute. -/
def step1 (dec : Nat → Instr) (fpu : FPU) (tbl : EcallTable) (m : Machine) : StepRes :=
  let m0 := { m with cycles := mask64 (m.cycles + 1) }
  if m0.pc % 4 ≠ 0 then .error ("Invalid PC address", m0)
  else
    match memReadWord m0.mem m0.pc with
    | none => .error ("Memory read fault", m0)
    | some w => exec1 fpu tbl (dec w) m0

/-- The CSR population performed by the `VirtualMachine` constructor
(identity CSRs, modelled from the spec's lifecycle paragraph) followed
by `VirtualMachine::Setup` (user, supervisor and machine CSRs zeroed;
registers zeroed; privilege Machine; cycles zero).  `fregs` are set to
`0.0` singles, which zeroes the low halves; their upper halves are
never initialized in the source and are modelled as zero here. -/
def initMachine (hart_id starting_pc time0 : Nat) : Machine :=
  { regs := fun _ => 0
    fregs := fun _ => 0
    pc := starting_pc
    cycles := 0
    csrs :=
      [(CSR_MVENDORID, 0), (CSR_MARCHID, 0x454E4948), (CSR_MIMPID, 0x43414D56),
       (CSR_MHARTID, hart_id), (CSR_MISA, 0x40001129),
       (CSR_FRM, 0), (CSR_CYCLE, 0), (CSR_TIME, 0), (CSR_INSTRET, 0),
       (CSR_CYCLEH, 0), (CSR_TIMEH, 0), (CSR_INSTRETH, 0),
       (CSR_SSTATUS, 0), (CSR_SIE, 0), (CSR_STVEC, 0), (CSR_SCOUNTEREN, 0),
       (CSR_SENVCFG, 0), (CSR_SSCRATCH, 0), (CSR_SEPC, 0), (CSR_SCAUSE, 0),
       (CSR_STVAL, 0), (CSR_SIP, 0), (CSR_SATP, 0), (CSR_SCONTEXT, 0),
       (CSR_MSTATUS, 0)]
    priv := Priv.Machine
    mem := { bytes := fun _ => none, resv := none }
    time := time0 }

/-- A trivial instantiation of the abstract FPU (every operation
returns zero bits and no exception flags), used to run the machine on
concrete programs. -/
def fpuZero : FPU :=
  { fadd32 := fun _ _ _ => (0, 0), fsub32 := fun _ _ _ => (0, 0)
    fmul32 := fun _ _ _ => (0, 0), fdiv32 := fun _ _ _ => (0, 0)
    fmadd32 := fun _ _ _ _ => (0, 0), fmsub32 := fun _ _ _ _ => (0, 0)
    fnmadd32 := fun _ _ _ _ => (0, 0), fnmsub32 := fun _ _ _ _ => (0, 0)
    fsqrt32 := fun _ _ => 0, feq32 := fun _ _ => false
    flt32 := fun _ _ => false, fle32 := fun _ _ => false
    fadd64 := fun _ _ _ => (0, 0), fsub64 := fun _ _ _ => (0, 0)
    fmul64 := fun _ _ _ => (0, 0), fdiv64 := fun _ _ _ => (0, 0)
    fmadd64 := fun _ _ _ _ => (0, 0), fmsub64 := fun _ _ _ _ => (0, 0)
    fnmadd64 := fun _ _ _ _ => (0, 0), fnmsub64 := fun _ _ _ _ => (0, 0)
    fsqrt64 := fun _ _ => 0, feq64 := fun _ _ => false
    flt64 := fun _ _ => false, fle64 := fun _ _ => false
    cvtSW := fun _ => (0, true), cvtSWU := fun _ => (0, true)
    cvtDW := fun _ => (0, true), cvtDWU := fun _ => (0, true)
    cvtSD := fun _ _ => 0, cvtDS := fun _ => 0, flwUpper := 0 }

/-- The empty ECALL table: no handlers installed, so every ECALL runs
`EmptyECallHandler` and faults. -/
def tblEmpty : EcallTable := fun _ => none

/-!
## Helper lemmas
-/

theorem any_key_map_update (cs : List (Nat × Nat)) (k' v k : Nat) :
    ((cs.map fun p => if p.1 == k' then (k', v) else p).any fun p => p.1 == k) =
      cs.any fun p => p.1 == k := by
  induction cs with
  | nil => rfl
  | cons hd tl ih =>
    simp only [List.map_cons, List.any_cons, ih]
    by_cases h : hd.1 = k'
    · simp [h]
    · simp [h]

theorem csrContains_csrSet_ne (cs : CsrMap) (k' v k : Nat) (h : k ≠ k') :
    csrContains (csrSet cs k' v) k = csrContains cs k := by
  unfold csrSet
  split
  · unfold csrContains
    exact any_key_map_update cs k' v k
  · unfold csrContains
    simp [List.any_append, Ne.symm h]

theorem csrContains_csrSet_update (cs : CsrMap) (k' v k : Nat) (h : csrContains cs k' = true) :
    csrContains (csrSet cs k' v) k = csrContains cs k := by
  unfold csrSet
  simp only [h, if_true]
  unfold csrContains
  exact any_key_map_update cs k' v k

theorem csrContains_of_lookup (cs : CsrMap) (k : Nat) (v : Nat) (h : csrLookup cs k = some v) :
    csrContains cs k = true := by
  unfold csrLookup at h
  unfold csrContains
  rcases ho : cs.find? (fun p => p.1 == k) with _ | p
  · rw [ho] at h; cases h
  · exact List.any_eq_true.mpr ⟨p, List.mem_of_find?_eq_some ho, by
      have := List.find?_some ho; exact this⟩

theorem csrGetD_contains_ne (cs : CsrMap) (k' k : Nat) (h : k ≠ k') :
    csrContains (csrGetD cs k').2 k = csrContains cs k := by
  unfold csrGetD
  rcases ho : csrLookup cs k' with _ | v
  · simp [csrContains, Ne.symm h]
  · rfl

theorem csrGetD_contains_self (cs : CsrMap) (k' : Nat) :
    csrContains (csrGetD cs k').2 k' = true := by
  unfold csrGetD
  rcases ho : csrLookup cs k' with _ | v
  · simp [csrContains]
  · exact csrContains_of_lookup cs k' v ho

theorem writeCSR_contains {m : Machine} {c v : Nat} {cs : CsrMap}
    (h : writeCSR m c v = .ok cs) (k : Nat) : csrContains cs k = csrContains m.csrs k := by
  unfold writeCSR at h
  split at h
  · cases h
  · split at h
    · cases h
    · split at h
      · cases h; rfl
      · cases h
        refine csrContains_csrSet_update m.csrs c (mask32 v) k ?_
        rename_i hcon _
        simpa using hcon

theorem setFloatFlags_contains (cs : CsrMap) (a b c d e : Bool) (k : Nat) (h : k ≠ CSR_FCSR) :
    csrContains (setFloatFlags cs a b c d e) k = csrContains cs k := by
  unfold setFloatFlags
  rw [csrContains_csrSet_ne _ _ _ _ h]
  exact csrGetD_contains_ne cs CSR_FCSR k h

theorem checkFloatErrors_contains (cs : CsrMap) (f k : Nat) (h : k ≠ CSR_FCSR) :
    csrContains (checkFloatErrors cs f).2 k = csrContains cs k := by
  unfold checkFloatErrors
  rw [csrContains_csrSet_ne _ _ _ _ h]
  exact csrGetD_contains_ne cs CSR_FCSR k h

theorem changeRM_contains (cs : CsrMap) (rm k : Nat) (h : k ≠ CSR_FCSR) :
    csrContains (changeRM cs rm).2 k = csrContains cs k := by
  unfold changeRM
  split
  · rfl
  · split
    · rfl
    · split
      · dsimp only
        split
        · exact csrGetD_contains_ne cs CSR_FCSR k h
        · exact csrGetD_contains_ne cs CSR_FCSR k h
      · rfl

theorem csrReadRd_eq_ok {m m1 : Machine} {rd imm : Nat} :
    csrReadRd m rd imm = .ok m1 ↔
      ((rd ≠ 0 ∧ ∃ v, readCSR m imm false = .ok v ∧ m1 = setReg m rd v) ∨ (rd = 0 ∧ m1 = m)) := by
  unfold csrReadRd
  by_cases hrd : rd = 0
  · simp [hrd, eq_comm]
  · cases hr : readCSR m imm false with
    | error e => simp [hrd, Except.map]
    | ok v => simp [hrd, Except.map, eq_comm]

theorem fminLess_contains (cs : CsrMap) (a b c d e : Bool) (k : Nat) (h : k ≠ CSR_FCSR) :
    csrContains (fminLess cs a b c d e).2 k = csrContains cs k := by
  unfold fminLess
  repeat' split
  all_goals first
    | rfl
    | exact setFloatFlags_contains cs true false false false false k h

theorem csrReadRd_frame {m m1 : Machine} {rd imm : Nat} (h : csrReadRd m rd imm = .ok m1) :
    m1.cycles = m.cycles ∧ m1.priv = m.priv ∧ m1.time = m.time ∧ m1.pc = m.pc ∧
      m1.csrs = m.csrs ∧ m1.mem = m.mem ∧ ∀ j, j ≠ rd → m1.regs j = m.regs j := by
  rcases csrReadRd_eq_ok.mp h with ⟨hrd, v, hv, rfl⟩ | ⟨hrd, rfl⟩
  · exact ⟨rfl, rfl, rfl, rfl, rfl, rfl, fun j hj => by simp [setReg, hj]⟩
  · exact ⟨rfl, rfl, rfl, rfl, rfl, rfl, fun j hj => rfl⟩

theorem csrReadRd_eq_err {m : Machine} {rd imm : Nat} {e : String} :
    csrReadRd m rd imm = .error e ↔ (rd ≠ 0 ∧ readCSR m imm false = .error e) := by
  unfold csrReadRd
  by_cases hrd : rd = 0
  · simp [hrd]
  · cases hr : readCSR m imm false with
    | error e' => simp [hrd, Except.map]
    | ok v => simp [hrd, Except.map]

set_option maxHeartbeats 4000000 in
theorem dispatch_frame (fpu : FPU) (tbl : EcallTable) (i : Instr) (m m' : Machine)
    (hd : dispatch fpu tbl i m = .ok m') :
    m'.cycles = m.cycles ∧ m'.priv = m.priv ∧ m'.time = m.time ∧
      (writesPcDirectly i.type = false → m'.pc = m.pc) ∧
      ((i.type = IType.ECALL → i.rd = 0) → i.rd ≠ 0 → m'.regs 0 = m.regs 0) ∧
      (∀ k, k ≠ CSR_FCSR → k ≠ CSR_MHARTID → csrContains m'.csrs k = csrContains m.csrs k) := by
  rcases i with ⟨t, rd, rs1, rs2, rs3, imm, rm⟩
  cases t
  case CSRRW =>
    simp only [dispatch] at hd
    split at hd
    next hrd =>
      cases hv : readCSR m imm false with
      | error e => simp [hv] at hd
      | ok v =>
        simp only [hv] at hd
        cases hw : writeCSR (setReg m rd v) imm (m.regs rs1) with
        | error e => simp [hw] at hd
        | ok cs =>
          simp only [hw] at hd
          cases hd
          refine ⟨rfl, rfl, rfl, fun _ => rfl, ?_, ?_⟩
          · intro _ _
            have h0 : (0 : Nat) ≠ rd := fun h => hrd h.symm
            simp [setCS, setReg, h0]
          · intro k _ _
            exact writeCSR_contains hw k
    next hrd =>
      cases hw : writeCSR m imm (m.regs rs1) with
      | error e => simp [hw] at hd
      | ok cs =>
        simp only [hw] at hd
        cases hd
        refine ⟨rfl, rfl, rfl, fun _ => rfl, ?_, ?_⟩
        · intro _ hrdne
          exact absurd (not_not.mp hrd) hrdne
        · intro k _ _
          exact writeCSR_contains hw k
  case CSRRS =>
    simp only [dispatch] at hd
    cases h1 : csrReadRd m rd imm with
    | error e => simp [h1] at hd
    | ok m1 =>
      simp only [h1] at hd
      obtain ⟨hc, hp, ht, hpc, hcs, hmem, hregs⟩ := csrReadRd_frame h1
      split at hd
      next hrs1 =>
        cases h2 : readCSR m1 imm true with
        | error e2 => simp [h2] at hd
        | ok cur =>
          simp only [h2] at hd
          cases h3 : writeCSR m1 imm (cur ||| m.regs rs1) with
          | error e3 => simp [h3] at hd
          | ok cs =>
            simp only [h3] at hd
            cases hd
            exact ⟨hc, hp, ht, fun _ => hpc, fun _ hrdne => hregs 0 (fun h => hrdne h.symm),
              fun k _ _ => (writeCSR_contains h3 k).trans (by rw [hcs])⟩
      next hrs1 =>
        cases hd
        exact ⟨hc, hp, ht, fun _ => hpc, fun _ hrdne => hregs 0 (fun h => hrdne h.symm),
          fun k _ _ => by rw [hcs]⟩
  case CSRRC =>
    simp only [dispatch] at hd
    cases h1 : csrReadRd m rd imm with
    | error e => simp [h1] at hd
    | ok m1 =>
      simp only [h1] at hd
      obtain ⟨hc, hp, ht, hpc, hcs, hmem, hregs⟩ := csrReadRd_frame h1
      split at hd
      next hrs1 =>
        cases h2 : readCSR m1 imm true with
        | error e2 => simp [h2] at hd
        | ok cur =>
          simp only [h2] at hd
          cases h3 : writeCSR m1 imm (cur &&& (mask32 (M32 - 1) ^^^ mask32 (m.regs rs1))) with
          | error e3 => simp [h3] at hd
          | ok cs =>
            simp only [h3] at hd
            cases hd
            exact ⟨hc, hp, ht, fun _ => hpc, fun _ hrdne => hregs 0 (fun h => hrdne h.symm),
              fun k _ _ => (writeCSR_contains h3 k).trans (by rw [hcs])⟩
      next hrs1 =>
        cases hd
        exact ⟨hc, hp, ht, fun _ => hpc, fun _ hrdne => hregs 0 (fun h => hrdne h.symm),
          fun k _ _ => by rw [hcs]⟩
  case CSRRWI =>
    simp only [dispatch] at hd
    cases h1 : csrReadRd m rd imm with
    | error e => simp [h1] at hd
    | ok m1 =>
      simp only [h1] at hd
      obtain ⟨hc, hp, ht, hpc, hcs, hmem, hregs⟩ := csrReadRd_frame h1
      cases h3 : writeCSR m1 imm rs1 with
      | error e3 => simp [h3] at hd
      | ok cs =>
        simp only [h3] at hd
        cases hd
        exact ⟨hc, hp, ht, fun _ => hpc, fun _ hrdne => hregs 0 (fun h => hrdne h.symm),
          fun k _ _ => (writeCSR_contains h3 k).trans (by rw [hcs])⟩
  case CSRRSI =>
    simp only [dispatch] at hd
    cases h1 : csrReadRd m rd imm with
    | error e => simp [h1] at hd
    | ok m1 =>
      simp only [h1] at hd
      obtain ⟨hc, hp, ht, hpc, hcs, hmem, hregs⟩ := csrReadRd_frame h1
      cases h2 : readCSR m1 imm true with
      | error e2 => simp [h2] at hd
      | ok cur =>
        simp only [h2] at hd
        cases h3 : writeCSR m1 imm (cur ||| rs1) with
        | error e3 => simp [h3] at hd
        | ok cs =>
          simp only [h3] at hd
          cases hd
          exact ⟨hc, hp, ht, fun _ => hpc, fun _ hrdne => hregs 0 (fun h => hrdne h.symm),
            fun k _ _ => (writeCSR_contains h3 k).trans (by rw [hcs])⟩
  case CSRRCI =>
    simp only [dispatch] at hd
    cases h1 : csrReadRd m rd imm with
    | error e => simp [h1] at hd
    | ok m1 =>
      simp only [h1] at hd
      obtain ⟨hc, hp, ht, hpc, hcs, hmem, hregs⟩ := csrReadRd_frame h1
      cases h2 : readCSR m1 imm true with
      | error e2 => simp [h2] at hd
      | ok cur =>
        simp only [h2] at hd
        cases h3 : writeCSR m1 imm (cur &&& (mask32 (M32 - 1) ^^^ mask32 rs1)) with
        | error e3 => simp [h3] at hd
        | ok cs =>
          simp only [h3] at hd
          cases hd
          exact ⟨hc, hp, ht, fun _ => hpc, fun _ hrdne => hregs 0 (fun h => hrdne h.symm),
            fun k _ _ => (writeCSR_contains h3 k).trans (by rw [hcs])⟩
  all_goals (
    simp only [dispatch] at hd <;>
    (repeat' split at hd) <;>
    first
    | exact Except.noConfusion hd
    | (cases hd
       refine ⟨?_, ?_, ?_, ?_, ?_, ?_⟩ <;>
         (intros
          (repeat' split) <;>
            (first
              | simp_all [setReg, setPC, setMem, setCS, setFreg64, setFregLow, fpArith32,
                  fpArith64, writesPcDirectly, setFloatFlags_contains, changeRM_contains,
                  checkFloatErrors_contains, csrGetD_contains_ne, fminLess_contains]
              | rfl) <;>
            (try (intro h0; exact absurd h0.symm (by assumption))))))


set_option maxHeartbeats 4000000 in
theorem dispatch_err (fpu : FPU) (tbl : EcallTable) (i : Instr) (m m' : Machine) (e : String)
    (hd : dispatch fpu tbl i m = .error (e, m')) :
    m'.pc = m.pc ∧ m'.cycles = m.cycles := by
  rcases i with ⟨t, rd, rs1, rs2, rs3, imm, rm⟩
  cases t
  case CSRRW =>
    simp only [dispatch] at hd
    split at hd
    next hrd =>
      cases hv : readCSR m imm false with
      | error e2 => simp only [hv] at hd; cases hd; exact ⟨rfl, rfl⟩
      | ok v =>
        simp only [hv] at hd
        cases hw : writeCSR (setReg m rd v) imm (m.regs rs1) with
        | error e3 => simp only [hw] at hd; cases hd; exact ⟨rfl, rfl⟩
        | ok cs => simp [hw] at hd
    next hrd =>
      cases hw : writeCSR m imm (m.regs rs1) with
      | error e3 => simp only [hw] at hd; cases hd; exact ⟨rfl, rfl⟩
      | ok cs => simp [hw] at hd
  case CSRRS =>
    simp only [dispatch] at hd
    cases h1 : csrReadRd m rd imm with
    | error e1 => simp only [h1] at hd; cases hd; exact ⟨rfl, rfl⟩
    | ok m1 =>
      simp only [h1] at hd
      obtain ⟨hc, hp, ht, hpc, hcs, hmem, hregs⟩ := csrReadRd_frame h1
      split at hd
      next hrs1 =>
        cases h2 : readCSR m1 imm true with
        | error e2 => simp only [h2] at hd; cases hd; exact ⟨hpc, hc⟩
        | ok cur =>
          simp only [h2] at hd
          cases h3 : writeCSR m1 imm (cur ||| m.regs rs1) with
          | error e3 => simp only [h3] at hd; cases hd; exact ⟨hpc, hc⟩
          | ok cs => simp [h3] at hd
      next hrs1 => exact Except.noConfusion hd
  case CSRRC =>
    simp only [dispatch] at hd
    cases h1 : csrReadRd m rd imm with
    | error e1 => simp only [h1] at hd; cases hd; exact ⟨rfl, rfl⟩
    | ok m1 =>
      simp only [h1] at hd
      obtain ⟨hc, hp, ht, hpc, hcs, hmem, hregs⟩ := csrReadRd_frame h1
      split at hd
      next hrs1 =>
        cases h2 : readCSR m1 imm true with
        | error e2 => simp only [h2] at hd; cases hd; exact ⟨hpc, hc⟩
        | ok cur =>
          simp only [h2] at hd
          cases h3 : writeCSR m1 imm (cur &&& (mask32 (M32 - 1) ^^^ mask32 (m.regs rs1))) with
          | error e3 => simp only [h3] at hd; cases hd; exact ⟨hpc, hc⟩
          | ok cs => simp [h3] at hd
      next hrs1 => exact Except.noConfusion hd
  case CSRRWI =>
    simp only [dispatch] at hd
    cases h1 : csrReadRd m rd imm with
    | error e1 => simp only [h1] at hd; cases hd; exact ⟨rfl, rfl⟩
    | ok m1 =>
      simp only [h1] at hd
      obtain ⟨hc, hp, ht, hpc, hcs, hmem, hregs⟩ := csrReadRd_frame h1
      cases h3 : writeCSR m1 imm rs1 with
      | error e3 => simp only [h3] at hd; cases hd; exact ⟨hpc, hc⟩
      | ok cs => simp [h3] at hd
  case CSRRSI =>
    simp only [dispatch] at hd
    cases h1 : csrReadRd m rd imm with
    | error e1 => simp only [h1] at hd; cases hd; exact ⟨rfl, rfl⟩
    | ok m1 =>
      simp only [h1] at hd
      obtain ⟨hc, hp, ht, hpc, hcs, hmem, hregs⟩ := csrReadRd_frame h1
      cases h2 : readCSR m1 imm true with
      | error e2 => simp only [h2] at hd; cases hd; exact ⟨hpc, hc⟩
      | ok cur =>
        simp only [h2] at hd
        cases h3 : writeCSR m1 imm (cur ||| rs1) with
        | error e3 => simp only [h3] at hd; cases hd; exact ⟨hpc, hc⟩
        | ok cs => simp [h3] at hd
  case CSRRCI =>
    simp only [dispatch] at hd
    cases h1 : csrReadRd m rd imm with
    | error e1 => simp only [h1] at hd; cases hd; exact ⟨rfl, rfl⟩
    | ok m1 =>
      simp only [h1] at hd
      obtain ⟨hc, hp, ht, hpc, hcs, hmem, hregs⟩ := csrReadRd_frame h1
      cases h2 : readCSR m1 imm true with
      | error e2 => simp only [h2] at hd; cases hd; exact ⟨hpc, hc⟩
      | ok cur =>
        simp only [h2] at hd
        cases h3 : writeCSR m1 imm (cur &&& (mask32 (M32 - 1) ^^^ mask32 rs1)) with
        | error e3 => simp only [h3] at hd; cases hd; exact ⟨hpc, hc⟩
        | ok cs => simp [h3] at hd
  all_goals (
    simp only [dispatch] at hd <;>
    (repeat' split at hd) <;>
    first
    | exact Except.noConfusion hd
    | (cases hd
       refine ⟨?_, ?_⟩ <;>
         (intros
          (repeat' split) <;>
            (first
              | simp_all [setReg, setPC, setMem, setCS, setFreg64, setFregLow, fpArith32,
                  fpArith64]
              | rfl))))

/-!
## The claims
-/

/-- C1: for every program, integer register 0 reads as 0 after every
executed instruction: the reset state zeroes lane 0, and one executed
instruction preserves the invariant (any write an instruction makes to
lane 0 is discarded by the final reset; instructions with another
destination never touch lane 0; the decoder delivers `rd = 0` for
ECALL). -/
theorem c1_reg0_always_reads_zero :
    (∀ hart pc t0, (initMachine hart pc t0).regs 0 = 0) ∧
    (∀ (fpu : FPU) (tbl : EcallTable) (i : Instr) (m m' : Machine),
      (i.type = IType.ECALL → i.rd = 0) → m.regs 0 = 0 →
      exec1 fpu tbl i m = .ok m' → m'.regs 0 = 0) := by
  refine ⟨fun _ _ _ => rfl, ?_⟩
  intro fpu tbl i m m' hty h0 hex
  unfold exec1 at hex
  cases hdm : dispatch fpu tbl i m with
  | error e => rw [hdm] at hex; exact Except.noConfusion hex
  | ok m1 =>
    rw [hdm] at hex
    cases hex
    obtain ⟨_, _, _, _, hregs0, _⟩ := dispatch_frame fpu tbl i m m1 hdm
    by_cases hrd : i.rd = 0
    · simp [hrd]
    · have h1 : m1.regs 0 = 0 := (hregs0 hty hrd).trans h0
      rw [if_neg hrd]
      split <;> exact h1

theorem c1_reg0_always_reads_zero_witness :
    (exec1 fpuZero tblEmpty ⟨IType.ADDI, 1, 0, 0, 0, 5, 0⟩ (initMachine 0 0 0)).map
      (fun mm => mm.regs 0) = Except.ok 0 := by
  obtain ⟨mW, hW⟩ :
      ∃ mm, exec1 fpuZero tblEmpty ⟨IType.ADDI, 1, 0, 0, 0, 5, 0⟩ (initMachine 0 0 0) =
        .ok mm := ⟨_, rfl⟩
  rw [hW]
  simp only [Except.map]
  exact congrArg Except.ok
    (c1_reg0_always_reads_zero.2 fpuZero tblEmpty ⟨IType.ADDI, 1, 0, 0, 0, 5, 0⟩
      (initMachine 0 0 0) mW (fun h => IType.noConfusion h) rfl hW)



/-- C9: every executed instruction that completes and is not a
conditional branch, JAL or JALR leaves `pc` at its prior value plus 4
(in 32-bit arithmetic). -/
theorem c9_pc_advances_by_four (fpu : FPU) (tbl : EcallTable) (i : Instr) (m m' : Machine)
    (hex : exec1 fpu tbl i m = .ok m') (hn : writesPcDirectly i.type = false) :
    m'.pc = mask32 (m.pc + 4) := by
  unfold exec1 at hex
  cases hdm : dispatch fpu tbl i m with
  | error e => rw [hdm] at hex; exact Except.noConfusion hex
  | ok m1 =>
    rw [hdm] at hex
    cases hex
    obtain ⟨_, _, _, hpc, _, _⟩ := dispatch_frame fpu tbl i m m1 hdm
    have h1 : m1.pc = m.pc := hpc hn
    by_cases hrd : i.rd = 0 <;> simp [hrd, hn, h1]

theorem c9_pc_advances_by_four_witness :
    (exec1 fpuZero tblEmpty ⟨IType.ADDI, 1, 0, 0, 0, 5, 0⟩ (initMachine 0 0 0)).map
      (fun mm => mm.pc) = Except.ok 4 := by
  obtain ⟨mW, hW⟩ :
      ∃ mm, exec1 fpuZero tblEmpty ⟨IType.ADDI, 1, 0, 0, 0, 5, 0⟩ (initMachine 0 0 0) =
        .ok mm := ⟨_, rfl⟩
  rw [hW]
  simp only [Except.map]
  exact congrArg Except.ok
    ((c9_pc_advances_by_four fpuZero tblEmpty ⟨IType.ADDI, 1, 0, 0, 0, 5, 0⟩
      (initMachine 0 0 0) mW hW rfl).trans rfl)

/-- C10: when one iteration of the step loop surfaces a fatal error,
the program counter still holds its pre-instruction value (the
advance-by-4 happens only after successful dispatch), while the cycle
counter has already been incremented for that instruction. -/
theorem c10_error_preserves_pc_increments_cycles (dec : Nat → Instr) (fpu : FPU)
    (tbl : EcallTable) (m m' : Machine) (e : String)
    (h : step1 dec fpu tbl m = .error (e, m')) :
    m'.pc = m.pc ∧ m'.cycles = mask64 (m.cycles + 1) := by
  simp only [step1] at h
  split at h
  · cases h; exact ⟨rfl, rfl⟩
  · cases hw : memReadWord m.mem m.pc with
    | none => simp only [hw] at h; cases h; exact ⟨rfl, rfl⟩
    | some w =>
      simp only [hw] at h
      unfold exec1 at h
      cases hdm : dispatch fpu tbl (dec w) { m with cycles := mask64 (m.cycles + 1) } with
      | ok m1 => rw [hdm] at h; exact Except.noConfusion h
      | error ep =>
        rw [hdm] at h
        cases h
        exact dispatch_err fpu tbl (dec w) _ m' e hdm

theorem c10_witness :
    (match step1 (fun _ => ⟨IType.INVALID, 0, 0, 0, 0, 0, 0⟩) fpuZero tblEmpty
        (initMachine 0 1 0) with
      | .error em => (em.2.pc, em.2.cycles)
      | .ok _ => (999, 999)) = (1, 1) := by
  obtain ⟨em, hem⟩ :
      ∃ em, step1 (fun _ => ⟨IType.INVALID, 0, 0, 0, 0, 0, 0⟩) fpuZero tblEmpty
        (initMachine 0 1 0) = .error em := ⟨_, rfl⟩
  obtain ⟨e, mm⟩ := em
  have h2 := c10_error_preserves_pc_increments_cycles _ fpuZero tblEmpty
    (initMachine 0 1 0) mm e hem
  rw [hem]
  dsimp only
  rw [h2.1, h2.2]
  rfl

/-- C2: the hand-rolled arithmetic right shift of SRAI/SRA tests bit
`32 - amount` and fills with `-1U << amount`, which is not
sign-propagation from bit 31: on `rs1 = 0x80000000`, `amount = 2` the
code produces `0x20000000` while the specified arithmetic shift gives
`0xE0000000`.  The last conjunct runs the full SRAI dispatch on that
input. -/
theorem c2_sra_bit_test_bug :
    sra32code 0x80000000 2 = 0x20000000 ∧ sra32spec 0x80000000 2 = 0xe0000000 ∧
    (exec1 fpuZero tblEmpty ⟨IType.SRAI, 1, 2, 2, 0, 0, 0⟩
      { initMachine 0 0 0 with regs := fun j => if j = 2 then 0x80000000 else 0 }).map
      (fun mm => mm.regs 1) = Except.ok 0x20000000 :=
  ⟨by decide, by decide, rfl⟩

/-- C4: FCLASS.S does not produce a one-hot mask: on `0xBF800000`
(minus one) the code sets bits 1 and 6 (result `0x42`), because the
"normal" bit 6 tests only `!subnormal && !nan`.  The last conjunct runs
the full FCLASS.S dispatch on that input. -/
theorem c4_fclass_not_one_hot :
    fclassS 0xBF800000 = 0x42 ∧ popCount10 (fclassS 0xBF800000) = 2 ∧
    (exec1 fpuZero tblEmpty ⟨IType.FCLASS_S, 1, 2, 0, 0, 0, 0⟩
      { initMachine 0 0 0 with fregs := fun j => if j = 2 then 0xBF800000 else 0 }).map
      (fun mm => mm.regs 1) = Except.ok 0x42 :=
  ⟨by decide, by decide, rfl⟩



/-- C5 counterexample: in the reset state (which is reachable — it is
the state every hart starts in), a CSR read of MCYCLE faults with
"Read Invalid CSR" instead of returning the low cycle-counter bits:
`Setup` never populates MCYCLE/MCYCLEH. -/
theorem c5_counterexample_mcycle_read_faults :
    readCSR (initMachine 0 0 0) CSR_MCYCLE false = Except.error "Read Invalid CSR" ∧
    readCSR (initMachine 0 0 0) CSR_MCYCLEH false = Except.error "Read Invalid CSR" := by
  constructor <;> rfl

theorem readCSR_internal_ok {m : Machine} {c : Nat} (h : csrContains m.csrs c = true) :
    ∃ v, readCSR m c true = Except.ok v := by
  unfold readCSR
  simp only [h]
  repeat' split
  all_goals first
    | exact ⟨_, rfl⟩
    | simp_all

/-- C5 amended: reads of CYCLE return the low 32 bits of the cycle
counter and CYCLEH the high 32 bits, in every state whose CSR map
contains them (true at reset and preserved by every executed
instruction, which can only grow the map at FCSR and MHARTID); MCYCLE
and MCYCLEH are never populated, so reading them faults. -/
theorem c5_cycle_reads_amended :
    (∀ m : Machine, csrContains m.csrs CSR_CYCLE = true →
      readCSR m CSR_CYCLE false = .ok (mask32 m.cycles)) ∧
    (∀ m : Machine, csrContains m.csrs CSR_CYCLEH = true →
      readCSR m CSR_CYCLEH false = .ok (mask32 (m.cycles >>> 32))) ∧
    (∀ m : Machine, csrContains m.csrs CSR_MCYCLE = false →
      readCSR m CSR_MCYCLE false = .error (if csrPrivilegeCheck m.priv CSR_MCYCLE then
        "Read Invalid CSR" else "CSR Read Privilege")) ∧
    (∀ m : Machine, csrContains m.csrs CSR_MCYCLEH = false →
      readCSR m CSR_MCYCLEH false = .error (if csrPrivilegeCheck m.priv CSR_MCYCLEH then
        "Read Invalid CSR" else "CSR Read Privilege")) ∧
    (∀ hart pc t0,
      csrContains (initMachine hart pc t0).csrs CSR_CYCLE = true ∧
      csrContains (initMachine hart pc t0).csrs CSR_CYCLEH = true ∧
      csrContains (initMachine hart pc t0).csrs CSR_MCYCLE = false ∧
      csrContains (initMachine hart pc t0).csrs CSR_MCYCLEH = false) ∧
    (∀ (fpu : FPU) (tbl : EcallTable) (i : Instr) (m m' : Machine),
      exec1 fpu tbl i m = .ok m' → ∀ k, k ≠ CSR_FCSR → k ≠ CSR_MHARTID →
      csrContains m'.csrs k = csrContains m.csrs k) := by
  refine ⟨?_, ?_, ?_, ?_, fun hart pc t0 => ⟨rfl, rfl, rfl, rfl⟩, ?_⟩
  · intro m h
    unfold readCSR
    simp [h, csrPrivilegeCheck, CSR_CYCLE, CSR_MCYCLE, CSR_MCYCLEH, CSR_CYCLEH,
      CSR_MHPMEVENT3, CSR_MHPMCOUNTER3, CSR_MHPMCOUNTER3H, CSR_PERFORMANCE_EVENT_MAX,
      CSR_PERF_COUNTER_MAX, CSR_SCONTEXT]
    exact h
  · intro m h
    unfold readCSR
    simp [h, csrPrivilegeCheck, CSR_CYCLE, CSR_MCYCLE, CSR_MCYCLEH, CSR_CYCLEH,
      CSR_MHPMEVENT3, CSR_MHPMCOUNTER3, CSR_MHPMCOUNTER3H, CSR_PERFORMANCE_EVENT_MAX,
      CSR_PERF_COUNTER_MAX, CSR_SCONTEXT]
    exact h
  · intro m h
    unfold readCSR
    by_cases hp : csrPrivilegeCheck m.priv CSR_MCYCLE = true <;> simp [h, hp]
  · intro m h
    unfold readCSR
    by_cases hp : csrPrivilegeCheck m.priv CSR_MCYCLEH = true <;> simp [h, hp]
  · intro fpu tbl i m m' hex k hk1 hk2
    unfold exec1 at hex
    cases hdm : dispatch fpu tbl i m with
    | error e => rw [hdm] at hex; exact Except.noConfusion hex
    | ok m1 =>
      rw [hdm] at hex
      cases hex
      obtain ⟨_, _, _, _, _, hcs⟩ := dispatch_frame fpu tbl i m m1 hdm
      have hthis : csrContains m1.csrs k = csrContains m.csrs k := hcs k hk1 hk2
      split <;> split <;> simpa using hthis

theorem c5_cycle_reads_amended_witness :
    csrContains (initMachine 0 0 0).csrs CSR_CYCLE = true ∧
    readCSR (initMachine 0 0 0) CSR_CYCLE false = .ok 0 :=
  ⟨rfl, (c5_cycle_reads_amended.1 (initMachine 0 0 0) rfl).trans rfl⟩



/-- C7 counterexample: CSRRSI with `rs1 = 0` (and `rd = 0`) does issue
a CSR write: at User privilege on the SSCRATCH CSR it raises the
write-privilege fault, where the claim requires no write, no fault and
an unchanged CSR. -/
theorem c7_counterexample_csrrsi_zero_rs1_writes :
    exec1 fpuZero tblEmpty ⟨IType.CSRRSI, 0, 0, 0, 0, CSR_SSCRATCH, 0⟩
        { initMachine 0 0 0 with priv := Priv.User } =
      Except.error ("CSR Write Privilege", { initMachine 0 0 0 with priv := Priv.User }) := by
  rfl

/-- C7 amended: `rs1 = 0` suppresses the CSR write only for the
register forms CSRRS/CSRRC (no write-privilege fault can arise and the
CSR map is unchanged); the immediate forms CSRRSI/CSRRCI always issue
the privilege-checked write, faulting with "CSR Write Privilege" at
insufficient privilege even when `rs1 = 0` (the internal read used to
compute the value is privilege-unchecked, which is why the write fault
and not a read fault surfaces); the value delivered to `rd` comes from
a privilege-checked read, which faults first when `rd != 0`. -/
theorem c7_csr_rmw_amended :
    (∀ (fpu : FPU) (tbl : EcallTable) (i : Instr) (m : Machine),
      (i.type = IType.CSRRS ∨ i.type = IType.CSRRC) → i.rs1 = 0 → i.rd = 0 →
      exec1 fpu tbl i m =
        .ok { m with pc := mask32 (m.pc + 4), regs := fun j => if j = 0 then 0 else m.regs j }) ∧
    (∀ (fpu : FPU) (tbl : EcallTable) (i : Instr) (m m' : Machine),
      (i.type = IType.CSRRS ∨ i.type = IType.CSRRC) → i.rs1 = 0 →
      exec1 fpu tbl i m = .ok m' → m'.csrs = m.csrs) ∧
    (∀ (fpu : FPU) (tbl : EcallTable) (i : Instr) (m : Machine),
      (i.type = IType.CSRRSI ∨ i.type = IType.CSRRCI) → i.rd = 0 →
      csrContains m.csrs i.immediate = true → csrPrivilegeCheck m.priv i.immediate = false →
      exec1 fpu tbl i m = .error ("CSR Write Privilege", m)) ∧
    (∀ (fpu : FPU) (tbl : EcallTable) (i : Instr) (m : Machine),
      (i.type = IType.CSRRSI ∨ i.type = IType.CSRRCI) → i.rd ≠ 0 →
      csrPrivilegeCheck m.priv i.immediate = false →
      exec1 fpu tbl i m = .error ("CSR Read Privilege", m)) := by
  refine ⟨?_, ?_, ?_, ?_⟩
  · rintro fpu tbl ⟨t, rd, rs1, rs2, rs3, imm, rm⟩ m (rfl | rfl) hrs1 hrd <;>
      (dsimp only at hrs1 hrd; subst hrs1; subst hrd;
       unfold exec1 dispatch csrReadRd;
       simp [writesPcDirectly])
  · rintro fpu tbl ⟨t, rd, rs1, rs2, rs3, imm, rm⟩ m m' (rfl | rfl) hrs1 hex <;>
      (dsimp only at hrs1 ⊢; subst hrs1;
       simp only [exec1, dispatch] at hex;
       cases h1 : csrReadRd m rd imm with
       | error e => simp [h1] at hex
       | ok m1 =>
         simp only [h1] at hex
         obtain ⟨hc, hp, ht, hpc, hcs, hmem, hregs⟩ := csrReadRd_frame h1
         simp only [if_neg (by simp : ¬(0 : Nat) ≠ 0)] at hex
         cases hex
         split <;> simpa using hcs)
  · rintro fpu tbl ⟨t, rd, rs1, rs2, rs3, imm, rm⟩ m (rfl | rfl) hrd hcon hpriv <;>
      (dsimp only at hrd hcon hpriv ⊢; subst hrd;
       unfold exec1 dispatch csrReadRd;
       obtain ⟨v, hv⟩ := readCSR_internal_ok (m := m) (c := imm) hcon;
       simp [hv, writeCSR, hpriv])
  · rintro fpu tbl ⟨t, rd, rs1, rs2, rs3, imm, rm⟩ m (rfl | rfl) hrd hpriv <;>
      (dsimp only at hrd hpriv ⊢;
       unfold exec1 dispatch csrReadRd;
       simp [hrd, readCSR, hpriv, Except.map])

theorem c7_csr_rmw_amended_witness :
    (exec1 fpuZero tblEmpty ⟨IType.CSRRS, 0, 0, 0, 0, CSR_SSCRATCH, 0⟩ (initMachine 0 0 0)).map
      (fun mm => mm.csrs) = Except.ok (initMachine 0 0 0).csrs := by
  rw [c7_csr_rmw_amended.1 fpuZero tblEmpty ⟨IType.CSRRS, 0, 0, 0, 0, CSR_SSCRATCH, 0⟩
    (initMachine 0 0 0) (Or.inl rfl) rfl rfl]
  rfl



/-- C8: the Sv32 walk of `TranslateMemoryAddress` matches, outcome for
outcome (physical address / page fault / access fault), the walk as the
specification words it: first-level PTE at `root + vpn1*4` with the
V/R-W validity check, superpage PPN0-zero check and
`{PPN1, vpn0, offset}` composition for first-level leaves, second-level
PTE at `PPN*4096 + vpn0*4` that must be a valid leaf, the
A-set/D-write policy, and peek-based reads that access-fault when the
word is absent. -/
theorem c8_translate_matches_sv32_spec (peek : Nat → Option Nat) (satp address : Nat)
    (is_write : Bool) :
    classifyT (translateMemoryAddress peek satp address is_write) =
      translateSv32Spec peek satp address is_write := by
  unfold translateMemoryAddress translateSv32Spec readTLBEntry
  cases h1 : peek (mask32 (mask32 (satp <<< 12) + ((mask32 address >>> 22) &&& 0x3ff) * 4)) with
  | none => simp [h1, classifyT]
  | some w1 =>
    simp only [h1]
    by_cases hv1 : (!(pteOf w1).V || !(pteOf w1).R && (pteOf w1).W) = true
    · simp [hv1, classifyT]
    · by_cases hl1 : (pteOf w1).isLeaf = true
      · by_cases hp0 : ((pteOf w1).PPN_0 != 0) = true
        · simp [hv1, hl1, hp0, classifyT]
        · by_cases had1 : (!(pteOf w1).A || (pteOf w1).D && is_write) = true
          · simp [hv1, hl1, hp0, had1, classifyT]
          · simp [hv1, hl1, hp0, had1, classifyT]
      · cases h2 : peek (mask32 ((pteOf w1).PPN * 0x1000 + ((address >>> 12) &&& 0x3ff) * 4)) with
        | none => simp [hv1, hl1, h2, classifyT]
        | some w2 =>
          simp only [h2]
          by_cases hv2 : (!(pteOf w2).V || !(pteOf w2).R && (pteOf w2).W) = true
          · simp [h2, hv1, hl1, hv2, classifyT]
          · by_cases hl2 : (pteOf w2).isLeaf = true
            · by_cases had2 : (!(pteOf w2).A || (pteOf w2).D && is_write) = true
              · simp [h2, hv1, hl1, hv2, hl2, had2, classifyT]
              · simp [h2, hv1, hl1, hv2, hl2, had2, classifyT]
            · simp [h2, hv1, hl1, hv2, hl2, classifyT]



/-- C3 counterexample: FCVT.W.S of minus infinity (bit pattern
`0xFF800000`) delivers `0xFFFFFFFF` (two's-complement −1), not
INT32_MIN (`0x80000000`) as the claim states; the last conjunct runs
the full dispatch on that input. -/
theorem c3_counterexample_neg_inf_signed :
    (fcvtW32 0xFF800000).1 = 0xffffffff ∧ (0xffffffff : Nat) ≠ 0x80000000 ∧
    (exec1 fpuZero tblEmpty ⟨IType.FCVT_W_S, 1, 2, 0, 0, 0, 0⟩
      { initMachine 0 0 0 with fregs := fun j => if j = 2 then 0xFF800000 else 0 }).map
      (fun mm => mm.regs 1) = Except.ok 0xffffffff :=
  ⟨by decide, by decide, rfl⟩

/-- C3 amended: the float-to-integer conversions clamp as follows.
Signed forms: +Inf and NaN deliver INT32_MAX, −Inf delivers
`0xFFFFFFFF` (−1, not INT32_MIN); unsigned forms: −Inf delivers 0,
+Inf and NaN deliver UINT32_MAX; every clamped conversion raises NX,
and a finite operand is truncated toward zero raising NX exactly when
the truncation is inexact. -/
theorem c3_fcvt_clamping_amended :
    (∀ u : Nat,
      ((classF32 u).is_inf = true → u.testBit 31 = false → fcvtW32 u = (0x7fffffff, true)) ∧
      ((classF32 u).is_inf = true → u.testBit 31 = true → fcvtW32 u = (0xffffffff, true)) ∧
      ((classF32 u).is_inf = false → ((classF32 u).is_nan || (classF32 u).is_qnan) = true →
        fcvtW32 u = (0x7fffffff, true)) ∧
      ((classF32 u).is_inf = false → (classF32 u).is_nan = false → (classF32 u).is_qnan = false →
        fcvtW32 u = (asUnsigned (f32TruncParts u).1, !(f32TruncParts u).2))) ∧
    (∀ u : Nat,
      ((classF32 u).is_inf = true → u.testBit 31 = true → fcvtWU32 u = (0, true)) ∧
      ((classF32 u).is_inf = true → u.testBit 31 = false → fcvtWU32 u = (0xffffffff, true)) ∧
      ((classF32 u).is_inf = false → ((classF32 u).is_nan || (classF32 u).is_qnan) = true →
        fcvtWU32 u = (0xffffffff, true)) ∧
      ((classF32 u).is_inf = false → (classF32 u).is_nan = false → (classF32 u).is_qnan = false →
        fcvtWU32 u = (asUnsigned (f32TruncParts u).1, !(f32TruncParts u).2))) ∧
    (∀ u : Nat,
      ((classF64 u).is_inf = true → (mask64 u).testBit 63 = false → fcvtW64 u = (0x7fffffff, true)) ∧
      ((classF64 u).is_inf = true → (mask64 u).testBit 63 = true → fcvtW64 u = (0xffffffff, true)) ∧
      ((classF64 u).is_inf = false → ((classF64 u).is_nan || (classF64 u).is_qnan) = true →
        fcvtW64 u = (0x7fffffff, true)) ∧
      ((classF64 u).is_inf = false → (classF64 u).is_nan = false → (classF64 u).is_qnan = false →
        fcvtW64 u = (asUnsigned (f64TruncParts u).1, !(f64TruncParts u).2))) ∧
    (∀ u : Nat,
      ((classF64 u).is_inf = true → (mask64 u).testBit 63 = true → fcvtWU64 u = (0, true)) ∧
      ((classF64 u).is_inf = true → (mask64 u).testBit 63 = false → fcvtWU64 u = (0xffffffff, true)) ∧
      ((classF64 u).is_inf = false → ((classF64 u).is_nan || (classF64 u).is_qnan) = true →
        fcvtWU64 u = (0xffffffff, true)) ∧
      ((classF64 u).is_inf = false → (classF64 u).is_nan = false → (classF64 u).is_qnan = false →
        fcvtWU64 u = (asUnsigned (f64TruncParts u).1, !(f64TruncParts u).2))) := by
  refine ⟨fun u => ⟨?_, ?_, ?_, ?_⟩, fun u => ⟨?_, ?_, ?_, ?_⟩,
    fun u => ⟨?_, ?_, ?_, ?_⟩, fun u => ⟨?_, ?_, ?_, ?_⟩⟩ <;>
    (intros
     simp_all [fcvtW32, fcvtWU32, fcvtW64, fcvtWU64, mask32, M32])

theorem c3_fcvt_clamping_amended_witness :
    (classF32 0x7F800000).is_inf = true ∧ Nat.testBit 0x7F800000 31 = false ∧
    fcvtW32 0x7F800000 = (0x7fffffff, true) :=
  ⟨by decide, by decide, (c3_fcvt_clamping_amended.1 0x7F800000).1 (by decide) (by decide)⟩



/-- C6 counterexample: there is no single canonical-NaN-boxed state for
the upper 32 bits after a single-precision write: FMV.W.X leaves the
upper half 0, while a non-faulting FADD.S leaves whatever the
destination lane held before (here `0xDEADBEEF`), and neither equals
the documented sentinel upper half `0xFFFFFFFF`
(of `0xFFFFFFFF7FC00000`). -/
theorem c6_counterexample_no_canonical_upper :
    (exec1 fpuZero tblEmpty ⟨IType.FMV_W_X, 1, 2, 0, 0, 0, 0⟩ (initMachine 0 0 0)).map
        (fun mm => mm.fregs 1 >>> 32) = Except.ok 0 ∧
    (exec1 fpuZero tblEmpty ⟨IType.FADD_S, 1, 2, 3, 0, 0, 0⟩
        { initMachine 0 0 0 with fregs := fun j => if j = 1 then 0xDEADBEEF00000000 else 0 }).map
        (fun mm => mm.fregs 1 >>> 32) = Except.ok 0xDEADBEEF ∧
    (0 : Nat) ≠ 0xffffffff ∧ (0xDEADBEEF : Nat) ≠ 0xffffffff :=
  ⟨rfl, rfl, by decide, by decide⟩

theorem memReadWord_lt {mm : Mem} {a w : Nat} (h : memReadWord mm a = some w) : w < M32 := by
  unfold memReadWord memReadByte at h
  rcases h0 : mm.bytes (mask32 a) with _ | b0 <;> rw [h0] at h
  · simp [Option.map] at h
  · rcases h1 : mm.bytes (mask32 (a + 1)) with _ | b1 <;> rw [h1] at h
    · simp [Option.map] at h
    · rcases h2 : mm.bytes (mask32 (a + 2)) with _ | b2 <;> rw [h2] at h
      · simp [Option.map] at h
      · rcases h3 : mm.bytes (mask32 (a + 3)) with _ | b3 <;> rw [h3] at h
        · simp [Option.map] at h
        · simp only [Option.map, Option.some.injEq] at h
          subst h
          have e0 : b0 % 256 < 256 := Nat.mod_lt _ (by norm_num)
          have e1 : b1 % 256 < 256 := Nat.mod_lt _ (by norm_num)
          have e2 : b2 % 256 < 256 := Nat.mod_lt _ (by norm_num)
          have e3 : b3 % 256 < 256 := Nat.mod_lt _ (by norm_num)
          simp only [Nat.shiftLeft_eq, M32]
          norm_num
          omega

theorem upper_of_boxed (x w : Nat) (hx : x < M32) (hw : w < M32) :
    mask64 ((x <<< 32) ||| w) >>> 32 = x := by
  have h1 : x <<< 32 < M64 := by
    have := mul_lt_mul_of_pos_right hx (show (0 : Nat) < 2 ^ 32 by norm_num)
    simpa [Nat.shiftLeft_eq, M32, M64] using this
  have h2 : w < M64 := lt_trans hw (by norm_num [M32, M64])
  have hlt : (x <<< 32) ||| w < M64 := by
    have := Nat.or_lt_two_pow (x := x <<< 32) (y := w) (n := 64)
      (by simpa [M64] using h1) (by simpa [M64] using h2)
    simpa [M64] using this
  rw [mask64, Nat.mod_eq_of_lt hlt]
  have hdist : ((x <<< 32) ||| w) >>> 32 = ((x <<< 32) >>> 32) ||| (w >>> 32) := by
    apply Nat.eq_of_testBit_eq
    intro i
    simp [Nat.testBit_shiftRight, Nat.testBit_or]
  have hzero : w >>> 32 = 0 := by
    rw [Nat.shiftRight_eq_div_pow]
    exact Nat.div_eq_of_lt (by simpa [M32] using hw)
  rw [hdist, hzero]
  simp [Nat.shiftLeft_eq, Nat.shiftRight_eq_div_pow]



theorem mask32_lt (x : Nat) : mask32 x < M32 := Nat.mod_lt _ (by norm_num [M32])

theorem mask64_of_lt32 {x : Nat} (h : x < M32) : mask64 x = x :=
  Nat.mod_eq_of_lt (lt_trans h (by norm_num [M32, M64]))

theorem shift32_of_lt32 {x : Nat} (h : x < M32) : x >>> 32 = 0 := by
  rw [Nat.shiftRight_eq_div_pow]
  exact Nat.div_eq_of_lt (by simpa [M32] using h)

/-- C6 amended: single-precision writes do not establish one canonical
boxed upper half.  A non-faulting FADD.S writes only the low 32 bits,
leaving the destination lane's previous upper half in place, and only
the canonical-NaN error path stores the documented sentinel
`0xFFFFFFFF7FC00000`; FMV.W.X zeroes the upper half; FLW fills the
upper half with an indeterminate host value (the uninitialized upper
bytes of the `Float` union that `ToFloat` builds). -/
theorem c6_nan_boxing_amended :
    (∀ (fpu : FPU) (tbl : EcallTable) (i : Instr) (m m' : Machine),
      i.type = IType.FADD_S → i.rm = 0 → exec1 fpu tbl i m = .ok m' →
      m'.fregs i.rd =
        if (checkFloatErrors m.csrs
             (fpu.fadd32 0 (mask32 (m.fregs i.rs1)) (mask32 (m.fregs i.rs2))).2).1 then
          RV_F32_NAN
        else ((m.fregs i.rd >>> 32) <<< 32) |||
          mask32 (fpu.fadd32 0 (mask32 (m.fregs i.rs1)) (mask32 (m.fregs i.rs2))).1) ∧
    (∀ (fpu : FPU) (tbl : EcallTable) (i : Instr) (m m' : Machine),
      i.type = IType.FMV_W_X → exec1 fpu tbl i m = .ok m' →
      m'.fregs i.rd = mask32 (m.regs i.rs1) ∧ m'.fregs i.rd >>> 32 = 0) ∧
    (∀ (fpu : FPU) (tbl : EcallTable) (i : Instr) (m m' : Machine),
      i.type = IType.FLW → exec1 fpu tbl i m = .ok m' →
      m'.fregs i.rd >>> 32 = mask32 fpu.flwUpper) := by
  refine ⟨?_, ?_, ?_⟩
  · rintro fpu tbl ⟨t, rd, rs1, rs2, rs3, imm, rm⟩ m m' rfl hrm hex
    dsimp only at hrm ⊢
    subst hrm
    simp only [exec1] at hex
    cases hdm : dispatch fpu tbl ⟨IType.FADD_S, rd, rs1, rs2, rs3, imm, 0⟩ m with
    | error e => rw [hdm] at hex; exact Except.noConfusion hex
    | ok m1 =>
      rw [hdm] at hex
      cases hex
      simp only [dispatch] at hdm
      rw [show changeRM m.csrs 0 = (true, m.csrs) from rfl] at hdm
      simp only [Bool.not_true] at hdm
      unfold fpArith32 at hdm
      simp only [setCS] at hdm
      cases hdm
      by_cases her : (checkFloatErrors m.csrs
          (fpu.fadd32 0 (mask32 (m.fregs rs1)) (mask32 (m.fregs rs2))).2).1 = true <;>
        by_cases hrd : rd = 0 <;>
          simp [her, hrd, writesPcDirectly, setFreg64, setFregLow, mask64, M64, RV_F32_NAN]
  · rintro fpu tbl ⟨t, rd, rs1, rs2, rs3, imm, rm⟩ m m' rfl hex
    dsimp only at hex ⊢
    simp only [exec1, dispatch] at hex
    cases hex
    by_cases hrd : rd = 0 <;>
      simp [hrd, writesPcDirectly, setFreg64, mask64_of_lt32 (mask32_lt (m.regs rs1)),
        shift32_of_lt32 (mask32_lt (m.regs rs1))]
  · rintro fpu tbl ⟨t, rd, rs1, rs2, rs3, imm, rm⟩ m m' rfl hex
    dsimp only at hex ⊢
    simp only [exec1, dispatch] at hex
    cases hw : memReadWord m.mem (m.regs rs1 + imm) with
    | none => rw [hw] at hex; exact Except.noConfusion hex
    | some w =>
      simp only [hw] at hex
      cases hex
      by_cases hrd : rd = 0 <;>
        simp [hrd, writesPcDirectly, setFreg64,
          upper_of_boxed (mask32 fpu.flwUpper) w (mask32_lt _) (memReadWord_lt hw)]



theorem c6_nan_boxing_amended_witness :
    (exec1 fpuZero tblEmpty ⟨IType.FMV_W_X, 1, 2, 0, 0, 0, 0⟩ (initMachine 0 0 0)).map
      (fun mm => mm.fregs 1) = Except.ok 0 := by
  obtain ⟨mW, hW⟩ : ∃ mm, exec1 fpuZero tblEmpty ⟨IType.FMV_W_X, 1, 2, 0, 0, 0, 0⟩
      (initMachine 0 0 0) = .ok mm := ⟨_, rfl⟩
  rw [hW]
  simp only [Except.map]
  exact congrArg Except.ok
    (((c6_nan_boxing_amended.2.1 fpuZero tblEmpty ⟨IType.FMV_W_X, 1, 2, 0, 0, 0, 0⟩
      (initMachine 0 0 0) mW rfl hW).1).trans rfl)

end RV32
